import Mathlib

/-!
# Verification of the CS-330 scene renderer (SceneManager.cpp / ViewManager.cpp)

A shallow embedding of the texture registry, material binder, ripple control
and the two render passes (color pass `RenderScene`, depth pass
`RenderShadowMap`), together with theorems settling the frozen claims about
the natural-language specification of this repository.

Conventions of the embedding:
* machine `float` values are modelled as exact real numbers (`ℝ`) where
  trigonometry is involved (matrices), and as rationals (`ℚ`) where the code
  only adds, subtracts and clamps (ripple amplitude, material fields);
* OpenGL calls are modelled as an explicit event trace (`GLEvent`), and the
  pieces of GL state the claims mention (viewport, bound framebuffer) as an
  explicit state record folded over the trace;
* fallible operations return `Bool × _` exactly as the C++ returns `bool`
  and mutates fields.
-/

namespace CS330

/-! ## Texture registry (SceneManager: m_textureIDs[16], m_loadedTextures) -/

/-- `TEXTURE_INFO` from SceneManager.h (fields as used in SceneManager.cpp):
an OpenGL texture handle and the caller-chosen tag string. -/
structure TEXTURE_INFO where
  ID : ℕ
  tag : String
  deriving DecidableEq, Repr

instance : Inhabited TEXTURE_INFO := ⟨⟨0, ""⟩⟩

/-- The registry part of `SceneManager`'s state: the fixed 16-entry array
`m_textureIDs[16]` (modelled as a `List` of length 16; writing past the end
of the list is the out-of-bounds branch, a no-op of `List.set`) and the
counter `m_loadedTextures`. -/
structure TextureRegistry where
  m_textureIDs : List TEXTURE_INFO
  m_loadedTextures : ℕ
  deriving DecidableEq, Repr

/-- Registry state right after the `SceneManager` constructor:
`m_loadedTextures = 0`, array default-initialized. -/
def initRegistry : TextureRegistry :=
  { m_textureIDs := List.replicate 16 default, m_loadedTextures := 0 }

/-- Result of `stbi_load`: either failure or the decoded width/height and
channel count (the pixel payload itself is irrelevant to every claim). -/
inductive DecodeResult where
  | fail
  | ok (width height colorChannels : ℕ)
  deriving DecidableEq, Repr

/-- `SceneManager::CreateGLTexture` (SceneManager.cpp lines 89–153).
`decoded` stands for the result of `stbi_load`; `textureID` for the fresh
handle produced by `glGenTextures`.  On a decode with 3 or 4 channels the
entry is written at index `m_loadedTextures` (no capacity check in the
source) and the counter incremented; on any other channel count the
function returns `false` before touching the registry; on decode failure
it returns `false`. -/
def CreateGLTexture (r : TextureRegistry) (decoded : DecodeResult)
    (textureID : ℕ) (tag : String) : Bool × TextureRegistry :=
  match decoded with
  | .fail => (false, r)
  | .ok _ _ colorChannels =>
    if colorChannels = 3 ∨ colorChannels = 4 then
      (true,
       { m_textureIDs := r.m_textureIDs.set r.m_loadedTextures ⟨textureID, tag⟩,
         m_loadedTextures := r.m_loadedTextures + 1 })
    else
      (false, r)

/-- The `while ((index < m_loadedTextures) && (bFound == false))` loop of
`FindTextureID` (lines 202–220), expressed on the active prefix of the
array: returns the `ID` of the first entry whose tag compares equal,
`-1` if none does. -/
def findTextureIDLoop (tag : String) : List TEXTURE_INFO → ℤ
  | [] => -1
  | e :: rest => if e.tag = tag then (e.ID : ℤ) else findTextureIDLoop tag rest

/-- `SceneManager::FindTextureID` (lines 202–220). -/
def FindTextureID (r : TextureRegistry) (tag : String) : ℤ :=
  findTextureIDLoop tag (r.m_textureIDs.take r.m_loadedTextures)

/-- The lookup loop of `FindTextureSlot` (lines 228–246), carrying the
running `index`: returns the index of the first entry whose tag compares
equal, `-1` if none does. -/
def findTextureSlotLoop (tag : String) : List TEXTURE_INFO → ℕ → ℤ
  | [], _ => -1
  | e :: rest, index =>
    if e.tag = tag then (index : ℤ) else findTextureSlotLoop tag rest (index + 1)

/-- `SceneManager::FindTextureSlot` (lines 228–246). -/
def FindTextureSlot (r : TextureRegistry) (tag : String) : ℤ :=
  findTextureSlotLoop tag (r.m_textureIDs.take r.m_loadedTextures) 0

/-- `SceneManager::BindGLTextures` (lines 161–174): for `i` below
`m_loadedTextures`, `glActiveTexture(GL_TEXTURE0 + i)` then
`glBindTexture(m_textureIDs[i].ID)` — i.e. unit `i` ends bound to the
`i`-th entry's handle — and afterwards the default sampler `objectTexture`
is set to unit 0.  The result lists the (unit, handle) bindings in call
order, paired with the sampler assignment. -/
def BindGLTextures (r : TextureRegistry) : List (ℕ × ℕ) × (String × ℕ) :=
  ((List.range r.m_loadedTextures).map
     (fun i => (i, ((r.m_textureIDs.getD i default).ID))),
   ("objectTexture", 0))

/-- The inputs of one successful-decode `CreateGLTexture` call: the decoded
image dimensions and channel count, the handle `glGenTextures` produced,
and the caller-chosen tag. -/
structure RegCall where
  width : ℕ
  height : ℕ
  colorChannels : ℕ
  textureID : ℕ
  tag : String
  deriving DecidableEq, Repr

/-- The registry after one `CreateGLTexture` call with a decodable image. -/
def regStep (r : TextureRegistry) (c : RegCall) : TextureRegistry :=
  (CreateGLTexture r (.ok c.width c.height c.colorChannels) c.textureID c.tag).2

/-- The registry entry a call registers. -/
def entryOf (c : RegCall) : TEXTURE_INFO :=
  ⟨c.textureID, c.tag⟩

/-! ## Material binder (SceneManager: m_objectMaterials, FindMaterial,
SetShaderMaterial).  Material fields are only copied and compared here, so
they are modelled over `ℚ` to stay decidable. -/

/-- A 3-component vector of rationals (`glm::vec3` where no trigonometry is
involved). -/
structure Vec3q where
  x : ℚ
  y : ℚ
  z : ℚ
  deriving DecidableEq, Repr

/-- `OBJECT_MATERIAL` from SceneManager.h, fields as used in
SceneManager.cpp (diffuseColor, specularColor, shininess, tag). -/
structure OBJECT_MATERIAL where
  diffuseColor : Vec3q
  specularColor : Vec3q
  shininess : ℚ
  tag : String
  deriving DecidableEq, Repr

/-- The `while ((index < m_objectMaterials.size()) && (bFound == false))`
loop of `FindMaterial` (lines 261–276): on the first entry whose tag
compares equal it copies `diffuseColor`, `specularColor` and `shininess`
into the out-parameter `material` (keeping the out-parameter's other
field), otherwise the out-parameter keeps its incoming value. -/
def findMaterialLoop (tag : String) (material : OBJECT_MATERIAL) :
    List OBJECT_MATERIAL → OBJECT_MATERIAL
  | [] => material
  | m :: rest =>
    if m.tag = tag then
      { material with
        diffuseColor := m.diffuseColor,
        specularColor := m.specularColor,
        shininess := m.shininess }
    else
      findMaterialLoop tag material rest

/-- `SceneManager::FindMaterial` (SceneManager.cpp lines 254–279).
`material` is the caller's out-parameter (passed by reference).  Note the
source returns `false` only when the materials list is empty; after the
loop it returns `true` unconditionally (`return(true)` at line 278),
whether or not the tag was found. -/
def FindMaterial (mats : List OBJECT_MATERIAL) (tag : String)
    (material : OBJECT_MATERIAL) : Bool × OBJECT_MATERIAL :=
  if mats.length = 0 then
    (false, material)
  else
    (true, findMaterialLoop tag material mats)

/-- The three material uniforms of the active shader program
(`material.diffuseColor`, `material.specularColor`, `material.shininess`). -/
structure MaterialUniforms where
  diffuseColor : Vec3q
  specularColor : Vec3q
  shininess : ℚ
  deriving DecidableEq, Repr

/-- `SceneManager::SetShaderMaterial` (SceneManager.cpp lines 396–412),
acting on the material uniforms of the shader program.  `junk` models the
contents of the uninitialized local `OBJECT_MATERIAL material;` declared at
line 401 (its `glm::vec3`/`float` members are indeterminate in C++): the
function's behavior for an absent tag depends on it, because `FindMaterial`
reports `true` whenever the materials list is non-empty. -/
def SetShaderMaterial (mats : List OBJECT_MATERIAL)
    (uniforms : MaterialUniforms) (materialTag : String)
    (junk : OBJECT_MATERIAL) : MaterialUniforms :=
  if mats.length > 0 then
    let r := FindMaterial mats materialTag junk
    if r.1 = true then
      { diffuseColor := r.2.diffuseColor,
        specularColor := r.2.specularColor,
        shininess := r.2.shininess }
    else
      uniforms
  else
    uniforms

/-! ## Ripple amplitude control (ViewManager) -/

/-- `glm::clamp(x, minVal, maxVal)` = `min(max(x, minVal), maxVal)`. -/
def glmClamp (x minVal maxVal : ℚ) : ℚ := min (max x minVal) maxVal

/-- The ripple-control fields of `ViewManager` (ViewManager.h lines 50–54):
current amplitude, step per key press, and the two clamp bounds (the bounds
carry their in-class initializers `0.0f` / `0.2f`). -/
structure RippleState where
  m_rippleAmplitude : ℚ
  m_rippleStep : ℚ
  m_rippleMin : ℚ
  m_rippleMax : ℚ
  deriving DecidableEq, Repr

/-- Ripple state after the `ViewManager` constructor (ViewManager.cpp lines
72–74 together with the in-class initializers): amplitude `0.10`, step
`0.01`, bounds `0.0` and `0.2`. -/
def initRippleState : RippleState :=
  { m_rippleAmplitude := 0.10, m_rippleStep := 0.01,
    m_rippleMin := 0.0, m_rippleMax := 0.2 }

/-- One frame of keyboard input as sampled by `ProcessRippleControls`:
whether the window pointer is non-null, and whether the I and U keys are
down. -/
structure RippleInput where
  hasWindow : Bool
  iPressed : Bool
  uPressed : Bool

/-- The first `if` of `ProcessRippleControls` (ViewManager.cpp lines
387–390): I increases the amplitude by `m_rippleStep`, clamped to
`[m_rippleMin, m_rippleMax]`. -/
def rippleIKeyStep (input : RippleInput) (s : RippleState) : RippleState :=
  if input.iPressed then
    { s with m_rippleAmplitude :=
        glmClamp (s.m_rippleAmplitude + s.m_rippleStep) s.m_rippleMin s.m_rippleMax }
  else s

/-- The second `if` of `ProcessRippleControls` (ViewManager.cpp lines
393–396): U decreases the amplitude by `m_rippleStep`, clamped to
`[m_rippleMin, m_rippleMax]`. -/
def rippleUKeyStep (input : RippleInput) (s : RippleState) : RippleState :=
  if input.uPressed then
    { s with m_rippleAmplitude :=
        glmClamp (s.m_rippleAmplitude - s.m_rippleStep) s.m_rippleMin s.m_rippleMax }
  else s

/-- `ViewManager::ProcessRippleControls` (ViewManager.cpp lines 382–397):
early-out when `m_pWindow` is null, then the I-key update followed by the
U-key update on the mutated state. -/
def ProcessRippleControls (input : RippleInput) (s : RippleState) : RippleState :=
  if !input.hasWindow then s
  else rippleUKeyStep input (rippleIKeyStep input s)

/-- The value `ViewManager::PrepareSceneView` pushes into the
`rippleAmplitude` uniform every frame (ViewManager.cpp lines 343–344):
the current `m_rippleAmplitude`. -/
def preparedRippleAmplitudeUniform (s : RippleState) : ℚ :=
  s.m_rippleAmplitude

/-- The ripple invariant: the clamp bounds are the constructor's `0` and
`0.2`, and the amplitude lies between them. -/
def RippleInv (s : RippleState) : Prop :=
  s.m_rippleMin = 0 ∧ s.m_rippleMax = 0.2 ∧
    0 ≤ s.m_rippleAmplitude ∧ s.m_rippleAmplitude ≤ 0.2

/-! ## glm vector / matrix operations over ℝ

`float` arithmetic is idealized as exact real arithmetic.  Matrices are
written in ordinary (row, column) mathematical convention; a glm
column-major entry `M[c][r]` is the entry in row `r`, column `c` below. -/

/-- `glm::vec3` where real arithmetic (trigonometry, square roots) is
involved. -/
structure Vec3R where
  x : ℝ
  y : ℝ
  z : ℝ

/-- `glm::mat4`. -/
abbrev Mat4 := Matrix (Fin 4) (Fin 4) ℝ

noncomputable instance : Add Vec3R := ⟨fun a b => ⟨a.x + b.x, a.y + b.y, a.z + b.z⟩⟩

/-- `glm::radians`: degrees to radians. -/
noncomputable def glmRadians (degrees : ℝ) : ℝ := degrees * Real.pi / 180

/-- `glm::dot` on `vec3`. -/
noncomputable def glmDot (a b : Vec3R) : ℝ := a.x * b.x + a.y * b.y + a.z * b.z

/-- `glm::cross`. -/
noncomputable def glmCross (a b : Vec3R) : Vec3R :=
  ⟨a.y * b.z - a.z * b.y, a.z * b.x - a.x * b.z, a.x * b.y - a.y * b.x⟩

/-- `glm::normalize` on `vec3`: the vector divided by its Euclidean length. -/
noncomputable def glmNormalize (v : Vec3R) : Vec3R :=
  let len := Real.sqrt (v.x ^ 2 + v.y ^ 2 + v.z ^ 2)
  ⟨v.x / len, v.y / len, v.z / len⟩

/-- `glm::perspective` (right-handed, clip space -1..1): the glm entries are
`M[0][0] = 1/(aspect·tan(fovy/2))`, `M[1][1] = 1/tan(fovy/2)`,
`M[2][2] = -(far+near)/(far-near)`, `M[2][3] = -1`,
`M[3][2] = -2·far·near/(far-near)`. -/
noncomputable def glmPerspective (fovy aspect zNear zFar : ℝ) : Mat4 :=
  let tanHalfFovy := Real.tan (fovy / 2)
  !![1 / (aspect * tanHalfFovy), 0, 0, 0;
     0, 1 / tanHalfFovy, 0, 0;
     0, 0, -(zFar + zNear) / (zFar - zNear), -(2 * zFar * zNear) / (zFar - zNear);
     0, 0, -1, 0]

/-- `glm::lookAt` (right-handed): with `f = normalize(center - eye)`,
`s = normalize(cross(f, up))`, `u = cross(s, f)`, the rows are `s`, `u`,
`-f` with fourth column `(-dot(s,eye), -dot(u,eye), dot(f,eye), 1)`. -/
noncomputable def glmLookAt (eye center up : Vec3R) : Mat4 :=
  let f := glmNormalize ⟨center.x - eye.x, center.y - eye.y, center.z - eye.z⟩
  let s := glmNormalize (glmCross f up)
  let u := glmCross s f
  !![s.x, s.y, s.z, -(glmDot s eye);
     u.x, u.y, u.z, -(glmDot u eye);
     -f.x, -f.y, -f.z, glmDot f eye;
     0, 0, 0, 1]

/-- `glm::scale`. -/
noncomputable def glmScale (v : Vec3R) : Mat4 :=
  !![v.x, 0, 0, 0;
     0, v.y, 0, 0;
     0, 0, v.z, 0;
     0, 0, 0, 1]

/-- `glm::translate`. -/
noncomputable def glmTranslate (v : Vec3R) : Mat4 :=
  !![1, 0, 0, v.x;
     0, 1, 0, v.y;
     0, 0, 1, v.z;
     0, 0, 0, 1]

/-- `glm::rotate(angle, axis)`: with `c = cos angle`, `s = sin angle` and
`a` the normalized axis, entry `(r, c)` follows glm's Rodrigues formula. -/
noncomputable def glmRotate (angle : ℝ) (v : Vec3R) : Mat4 :=
  let c := Real.cos angle
  let s := Real.sin angle
  let a := glmNormalize v
  !![c + (1 - c) * a.x * a.x, (1 - c) * a.y * a.x - s * a.z, (1 - c) * a.z * a.x + s * a.y, 0;
     (1 - c) * a.x * a.y + s * a.z, c + (1 - c) * a.y * a.y, (1 - c) * a.z * a.y - s * a.x, 0;
     (1 - c) * a.x * a.z - s * a.y, (1 - c) * a.y * a.z + s * a.x, c + (1 - c) * a.z * a.z, 0;
     0, 0, 0, 1]

/-! ## GL call trace -/

/-- A mesh-draw call of the `ShapeMeshes` service: `DrawPlaneMesh()`,
`DrawCylinderMesh(top, bottom, sides)` or
`DrawTaperedCylinderMesh(top, bottom, sides)`. -/
inductive DrawCall where
  | plane
  | cylinder (top bottom sides : Bool)
  | taperedCylinder (top bottom sides : Bool)
  deriving DecidableEq, Repr

/-- One OpenGL / shader-manager call issued by the render code.  The
`depthProgram` flag on `useProgram` / `uniformMat4` records whether the
call goes through `m_pDepthShaderManager` (`true`) or the main
`m_pShaderManager` (`false`). -/
inductive GLEvent where
  | getViewport
  | setViewport (x y width height : ℤ)
  | bindFramebuffer (fbo : ℕ)
  | clearDepthBuffer
  | enableDepthTest
  | useProgram (depthProgram : Bool)
  | depthMask (flag : Bool)
  | activeTexture (unit : ℕ)
  | bindTexture2D (textureID : ℕ)
  | uniformSampler (name : String) (unit : ℕ)
  | uniformInt (name : String) (value : ℤ)
  | uniformFloat (name : String) (value : ℝ)
  | uniformVec2 (name : String) (value : ℝ × ℝ)
  | uniformVec3 (name : String) (value : Vec3R)
  | uniformVec4 (name : String) (value : ℝ × ℝ × ℝ × ℝ)
  | uniformMat4 (depthProgram : Bool) (name : String) (value : Mat4)
  | draw (call : DrawCall)

/-- The active viewport (the four integers read by
`glGetIntegerv(GL_VIEWPORT, …)` and written by `glViewport`). -/
structure Viewport where
  x : ℤ
  y : ℤ
  width : ℤ
  height : ℤ
  deriving DecidableEq, Repr

/-- The pieces of global GL state the claims are about: the viewport and
the currently bound framebuffer (0 = default). -/
structure GLState where
  viewport : Viewport
  boundFramebuffer : ℕ

/-- Effect of one GL call on the modelled GL state. -/
def applyGLEvent (gl : GLState) : GLEvent → GLState
  | .setViewport x y w h => { gl with viewport := ⟨x, y, w, h⟩ }
  | .bindFramebuffer fbo => { gl with boundFramebuffer := fbo }
  | _ => gl

/-- The combined model transform `translation * rotationZ * rotationY *
rotationX * scale` that both passes compute from scale, Euler angles in
degrees and translation. -/
noncomputable def modelMatrixTRS (scaleXYZ : Vec3R)
    (XrotationDegrees YrotationDegrees ZrotationDegrees : ℝ)
    (positionXYZ : Vec3R) : Mat4 :=
  glmTranslate positionXYZ *
    glmRotate (glmRadians ZrotationDegrees) ⟨0, 0, 1⟩ *
    glmRotate (glmRadians YrotationDegrees) ⟨0, 1, 0⟩ *
    glmRotate (glmRadians XrotationDegrees) ⟨1, 0, 0⟩ *
    glmScale scaleXYZ

/-- `SceneManager::SetTransformations` (SceneManager.cpp lines 287–317):
computes `translation * rotationZ * rotationY * rotationX * scale` and
writes it to the main program's `model` uniform (`m_pShaderManager` is
non-null throughout `RenderScene`, which dereferences it unconditionally). -/
noncomputable def SetTransformations (scaleXYZ : Vec3R)
    (XrotationDegrees YrotationDegrees ZrotationDegrees : ℝ)
    (positionXYZ : Vec3R) : List GLEvent :=
  let scale := glmScale scaleXYZ
  let rotationX := glmRotate (glmRadians XrotationDegrees) ⟨1, 0, 0⟩
  let rotationY := glmRotate (glmRadians YrotationDegrees) ⟨0, 1, 0⟩
  let rotationZ := glmRotate (glmRadians ZrotationDegrees) ⟨0, 0, 1⟩
  let translation := glmTranslate positionXYZ
  let modelView := translation * rotationZ * rotationY * rotationX * scale
  [.uniformMat4 false "model" modelView]

/-- `SceneManager::SetShaderColor` (lines 325–344): disables texture
sampling and writes the solid RGBA color. -/
def SetShaderColor (red green blue alpha : ℝ) : List GLEvent :=
  [.uniformInt "bUseTexture" 0,
   .uniformVec4 "objectColor" (red, green, blue, alpha)]

/-- `SceneManager::SetShaderTexture` (lines 352–374): enables texture
sampling, resolves the tag to a slot (falling back to 0 when the tag is
unknown), activates that unit, binds the resolved handle when it is
positive, and points the `objectTexture` sampler at the slot. -/
def SetShaderTexture (reg : TextureRegistry) (textureTag : String) : List GLEvent :=
  let textureSlot0 := FindTextureSlot reg textureTag
  let textureSlot := if textureSlot0 < 0 then 0 else textureSlot0
  let textureID := FindTextureID reg textureTag
  [.uniformInt "bUseTexture" 1, .activeTexture textureSlot.toNat] ++
    (if textureID > 0 then [.bindTexture2D textureID.toNat] else []) ++
    [.uniformSampler "objectTexture" textureSlot.toNat]

/-- `SceneManager::SetTextureUVScale` (lines 382–388). -/
def SetTextureUVScale (u v : ℝ) : List GLEvent :=
  [.uniformVec2 "UVscale" (u, v)]

/-! ## The color pass: `SceneManager::RenderScene` (lines 526–823),
section by section in source order. -/

/-- The shadow-map binding block that opens (lines 535–542) and closes
(lines 813–821) `RenderScene`: skipped entirely when
`m_shadowDepthTexture` is 0. -/
noncomputable def shadowBindBlock (shadowDepthTexture : ℕ)
    (spotLightSpaceMatrix : Mat4) : List GLEvent :=
  if shadowDepthTexture ≠ 0 then
    [.activeTexture 7,
     .bindTexture2D shadowDepthTexture,
     .uniformSampler "spotShadowMap" 7,
     .uniformMat4 false "spotLightSpaceMatrix" spotLightSpaceMatrix]
  else
    []

/-- Lines 544–577: the surface plane. -/
noncomputable def planeSection (reg : TextureRegistry) : List GLEvent :=
  SetTransformations ⟨20.0, 1.0, 10.0⟩ 0.0 0.0 0.0 ⟨0.0, 0.0, 0.0⟩ ++
    [.uniformInt "bUseLighting" 1,
     .uniformVec3 "material.diffuseColor" ⟨1.0, 1.0, 1.0⟩,
     .uniformVec3 "material.specularColor" ⟨0.4, 0.4, 0.4⟩,
     .uniformFloat "material.shininess" 32.0] ++
    SetShaderTexture reg "stone" ++
    SetTextureUVScale 16.0 16.0 ++
    [.draw .plane]

/-- Lines 579–606: the ceramic saucer under the mug. -/
noncomputable def saucerSection : List GLEvent :=
  SetTransformations ⟨2.6, 0.02, 2.6⟩ 0.0 0.0 0.0 ⟨0.0, 0.0, 0.0⟩ ++
    [.uniformInt "bUseLighting" 1,
     .uniformVec3 "material.diffuseColor" ⟨0.6, 0.6, 0.6⟩,
     .uniformVec3 "material.specularColor" ⟨1.0, 1.0, 1.0⟩,
     .uniformFloat "material.shininess" 128.0] ++
    SetShaderColor 1.00 0.97 0.88 1.00 ++
    SetTextureUVScale 1.0 1.0 ++
    [.depthMask true,
     .draw (.cylinder true true true)]

/-- Lines 608–627: the saucer's raised rim. -/
noncomputable def saucerRimSection : List GLEvent :=
  SetTransformations ⟨2.6, 0.03, 2.6⟩ 0.0 0.0 0.0 ⟨0.0, 0.03, 0.0⟩ ++
    [.uniformVec3 "material.diffuseColor" ⟨0.55, 0.55, 0.55⟩,
     .uniformVec3 "material.specularColor" ⟨1.0, 1.0, 1.0⟩,
     .uniformFloat "material.shininess" 128.0] ++
    SetShaderColor 0.98 0.95 0.86 1.00 ++
    [.draw (.cylinder false true true),
     .depthMask true]

/-- Lines 629–662: the outer mug body. -/
noncomputable def outerMugSection (reg : TextureRegistry) : List GLEvent :=
  SetTransformations ⟨1.5, 2.0, 1.5⟩ 180.0 0.0 0.0 ⟨0.0, 2.10, 0.0⟩ ++
    [.uniformInt "bUseLighting" 1,
     .uniformVec3 "material.diffuseColor" ⟨1.0, 1.0, 1.0⟩,
     .uniformVec3 "material.specularColor" ⟨0.25, 0.25, 0.25⟩,
     .uniformFloat "material.shininess" 24.0] ++
    SetShaderTexture reg "grass" ++
    SetTextureUVScale 2.0 1.0 ++
    [.draw (.taperedCylinder true false true)]

/-- Lines 666–698: the inner mug surface. -/
noncomputable def innerMugSection (reg : TextureRegistry) : List GLEvent :=
  SetTransformations ⟨1.46, 1.96, 1.46⟩ 180.0 0.0 0.0 ⟨0.0, 2.11, 0.0⟩ ++
    [.uniformInt "bUseLighting" 1,
     .uniformVec3 "material.diffuseColor" ⟨1.0, 1.0, 1.0⟩,
     .uniformVec3 "material.specularColor" ⟨0.25, 0.25, 0.25⟩,
     .uniformFloat "material.shininess" 24.0] ++
    SetShaderTexture reg "grass" ++
    SetTextureUVScale 1.0 1.0 ++
    [.draw (.taperedCylinder false false true)]

/-- Lines 700–721: the straw (color pass). -/
noncomputable def strawSection : List GLEvent :=
  SetTransformations ⟨0.08, 2.96, 0.08⟩ (-32.25) 150.0 0.0 ⟨-0.45, 0.25, -0.12⟩ ++
    [.uniformVec3 "material.diffuseColor" ⟨1.0, 1.0, 1.0⟩,
     .uniformVec3 "material.specularColor" ⟨0.35, 0.35, 0.35⟩,
     .uniformFloat "material.shininess" 32.0] ++
    SetShaderColor 0.96 0.96 0.92 1.0 ++
    [.draw (.cylinder true true true)]

/-- Lines 723–773: the rippling liquid surface (`time` is the value of
`glfwGetTime()` this frame). -/
noncomputable def liquidSection (time : ℝ) : List GLEvent :=
  SetTransformations ⟨1.30, 0.01, 1.30⟩ 0.5 0.0 0.3 ⟨0.0, 1.78, 0.0⟩ ++
    [.uniformInt "bUseLighting" 1] ++
    SetShaderColor 0.2 0.45 0.9 0.7 ++
    [.uniformInt "bIsLiquidSurface" 1,
     .uniformFloat "timeSeconds" (time * 0.5),
     .uniformVec2 "rippleParams" (3.0, 22.0),
     .uniformVec3 "material.diffuseColor" ⟨1.0, 0.95, 0.8⟩,
     .uniformVec3 "material.specularColor" ⟨1.0, 1.0, 1.0⟩,
     .uniformFloat "material.shininess" 96.0,
     .uniformFloat "rippleAmplitude" 0.10,
     .draw (.cylinder true false false),
     .depthMask true,
     .uniformInt "bIsLiquidSurface" 0]

/-- Lines 779–811: the mug bottom. -/
noncomputable def mugBottomSection (reg : TextureRegistry) : List GLEvent :=
  SetTransformations ⟨1.0, 0.1, 1.0⟩ 0.0 0.0 0.0 ⟨0.0, 0.06, 0.0⟩ ++
    [.uniformInt "bUseLighting" 1] ++
    SetShaderTexture reg "grass" ++
    SetTextureUVScale 1.0 1.0 ++
    [.draw (.cylinder true true false),
     .uniformInt "bUseLighting" 1]

/-- `SceneManager::RenderScene` (lines 526–823) as the trace of calls it
issues, parametrized by the texture registry, the shadow depth texture
handle `m_shadowDepthTexture`, the stored light-space matrix
`m_spotLightSpaceMatrix`, and this frame's `glfwGetTime()` value. -/
noncomputable def RenderScene (reg : TextureRegistry) (shadowDepthTexture : ℕ)
    (spotLightSpaceMatrix : Mat4) (time : ℝ) : List GLEvent :=
  shadowBindBlock shadowDepthTexture spotLightSpaceMatrix ++
    planeSection reg ++
    saucerSection ++
    saucerRimSection ++
    outerMugSection reg ++
    innerMugSection reg ++
    strawSection ++
    liquidSection time ++
    mugBottomSection reg ++
    shadowBindBlock shadowDepthTexture spotLightSpaceMatrix

/-! ## The depth pass: `SceneManager::RenderShadowMap` (lines 825–900). -/

/-- The shadow-pass part of `SceneManager`'s state. -/
structure ShadowState where
  m_shadowFBO : ℕ
  m_shadowDepthTexture : ℕ
  m_shadowMapWidth : ℕ
  m_shadowMapHeight : ℕ
  /-- whether `m_pDepthShaderManager` is non-null -/
  m_hasDepthShader : Bool
  m_spotLightSpaceMatrix : Mat4

/-- The `setDepthModel` lambda inside `RenderShadowMap` (lines 852–863):
computes `trans * rotZ * rotY * rotX * scale` and writes it to the depth
program's `model` uniform. -/
noncomputable def setDepthModel (scaleXYZ : Vec3R) (Xdeg Ydeg Zdeg : ℝ)
    (posXYZ : Vec3R) : List GLEvent :=
  let scale := glmScale scaleXYZ
  let rotX := glmRotate (glmRadians Xdeg) ⟨1, 0, 0⟩
  let rotY := glmRotate (glmRadians Ydeg) ⟨0, 1, 0⟩
  let rotZ := glmRotate (glmRadians Zdeg) ⟨0, 0, 1⟩
  let trans := glmTranslate posXYZ
  let model := trans * rotZ * rotY * rotX * scale
  [.uniformMat4 true "model" model]

/-- The body of `RenderShadowMap` past the early-out guard (lines
830–899): computes and stores the light-space matrix, saves the viewport,
renders the fixed object list into the shadow framebuffer through the
depth-only program, then unbinds the framebuffer and restores the saved
viewport.  Returns the new `SceneManager` state, the GL state after the
calls, and the call trace. -/
noncomputable def renderShadowMapBody (s : ShadowState) (gl : GLState)
    (lightPosition lightDirection : Vec3R) :
    ShadowState × GLState × List GLEvent :=
  let nearPlane : ℝ := 0.05
  let farPlane : ℝ := 80.0
  let fov : ℝ := 48.0
  let lightProjection := glmPerspective (glmRadians fov)
    ((s.m_shadowMapWidth : ℝ) / (s.m_shadowMapHeight : ℝ)) nearPlane farPlane
  let lightView := glmLookAt lightPosition
    (lightPosition + glmNormalize lightDirection) ⟨0.0, 1.0, 0.0⟩
  let lightSpaceMatrix := lightProjection * lightView
  let prevViewport := gl.viewport
  let trace : List GLEvent :=
    [.getViewport,
     .setViewport 0 0 (s.m_shadowMapWidth : ℤ) (s.m_shadowMapHeight : ℤ),
     .bindFramebuffer s.m_shadowFBO,
     .clearDepthBuffer,
     .enableDepthTest,
     .useProgram true,
     .uniformMat4 true "view" lightView,
     .uniformMat4 true "projection" lightProjection] ++
    setDepthModel ⟨20.0, 1.0, 10.0⟩ 0.0 0.0 0.0 ⟨0.0, 0.0, 0.0⟩ ++
    [.draw .plane] ++
    setDepthModel ⟨2.6, 0.02, 2.6⟩ 0.0 0.0 0.0 ⟨0.0, 0.0, 0.0⟩ ++
    [.draw (.cylinder true true true)] ++
    setDepthModel ⟨2.6, 0.03, 2.6⟩ 0.0 0.0 0.0 ⟨0.0, 0.03, 0.0⟩ ++
    [.draw (.cylinder false true true)] ++
    setDepthModel ⟨1.5, 2.0, 1.5⟩ 180.0 0.0 0.0 ⟨0.0, 2.10, 0.0⟩ ++
    [.draw (.taperedCylinder true false true)] ++
    setDepthModel ⟨1.46, 1.96, 1.46⟩ 180.0 0.0 0.0 ⟨0.0, 2.11, 0.0⟩ ++
    [.draw (.taperedCylinder false false true)] ++
    setDepthModel ⟨1.30, 0.01, 1.30⟩ 0.5 0.0 0.3 ⟨0.0, 1.78, 0.0⟩ ++
    [.draw (.cylinder true false false)] ++
    setDepthModel ⟨1.0, 0.1, 1.0⟩ 0.0 0.0 0.0 ⟨0.0, 0.06, 0.0⟩ ++
    [.draw (.cylinder true true false)] ++
    setDepthModel ⟨0.08, 2.96, 0.08⟩ (-24.0) (-18.0) 0.0 ⟨-0.45, 2.60, -0.12⟩ ++
    [.draw (.cylinder true true true)] ++
    [.bindFramebuffer 0,
     .setViewport prevViewport.x prevViewport.y prevViewport.width prevViewport.height]
  ({ s with m_spotLightSpaceMatrix := lightSpaceMatrix },
   trace.foldl applyGLEvent gl,
   trace)

/-- `SceneManager::RenderShadowMap` (lines 825–900): early-out when the
shadow framebuffer is 0 or the depth shader program is null, otherwise the
body above. -/
noncomputable def RenderShadowMap (s : ShadowState) (gl : GLState)
    (lightPosition lightDirection : Vec3R) :
    ShadowState × GLState × List GLEvent :=
  if s.m_shadowFBO = 0 ∨ s.m_hasDepthShader = false then
    (s, gl, [])
  else
    renderShadowMapBody s gl lightPosition lightDirection

/-! ## Trace observations -/

/-- The draw call recorded by an event, if any. -/
def drawOf : GLEvent → Option DrawCall
  | .draw c => some c
  | _ => none

/-- The sequence of mesh-draw calls in a trace. -/
def drawCalls (trace : List GLEvent) : List DrawCall :=
  trace.filterMap drawOf

/-- The sequence of draws in a trace, each paired with the model matrix
most recently uploaded (to either program's `model` uniform) before it. -/
def drawsWithModel : List GLEvent → Option Mat4 → List (Option Mat4 × DrawCall)
  | [], _ => []
  | GLEvent.uniformMat4 _ name m :: rest, cur =>
    if name = "model" then drawsWithModel rest (some m)
    else drawsWithModel rest cur
  | GLEvent.draw c :: rest, cur => (cur, c) :: drawsWithModel rest cur
  | GLEvent.getViewport :: rest, cur => drawsWithModel rest cur
  | GLEvent.setViewport _ _ _ _ :: rest, cur => drawsWithModel rest cur
  | GLEvent.bindFramebuffer _ :: rest, cur => drawsWithModel rest cur
  | GLEvent.clearDepthBuffer :: rest, cur => drawsWithModel rest cur
  | GLEvent.enableDepthTest :: rest, cur => drawsWithModel rest cur
  | GLEvent.useProgram _ :: rest, cur => drawsWithModel rest cur
  | GLEvent.depthMask _ :: rest, cur => drawsWithModel rest cur
  | GLEvent.activeTexture _ :: rest, cur => drawsWithModel rest cur
  | GLEvent.bindTexture2D _ :: rest, cur => drawsWithModel rest cur
  | GLEvent.uniformSampler _ _ :: rest, cur => drawsWithModel rest cur
  | GLEvent.uniformInt _ _ :: rest, cur => drawsWithModel rest cur
  | GLEvent.uniformFloat _ _ :: rest, cur => drawsWithModel rest cur
  | GLEvent.uniformVec2 _ _ :: rest, cur => drawsWithModel rest cur
  | GLEvent.uniformVec3 _ _ :: rest, cur => drawsWithModel rest cur
  | GLEvent.uniformVec4 _ _ :: rest, cur => drawsWithModel rest cur

/-- Is the event a `glBindFramebuffer` with a non-default (non-zero)
target? -/
def isBindFramebufferNonzero : GLEvent → Bool
  | .bindFramebuffer fbo => !(fbo == 0)
  | _ => false

/-- Is the event a `glBindFramebuffer(GL_FRAMEBUFFER, 0)` (unbind)? -/
def isBindFramebufferZero : GLEvent → Bool
  | .bindFramebuffer fbo => fbo == 0
  | _ => false

/-- Is the event the viewport save (`glGetIntegerv(GL_VIEWPORT, …)`)?
This is the only state-query call the embedding records. -/
def isGetViewport : GLEvent → Bool
  | .getViewport => true
  | _ => false

/-- Is the event a `glViewport` call? -/
def isSetViewport : GLEvent → Bool
  | .setViewport _ _ _ _ => true
  | _ => false

/-- Is the event an upload of the `spotShadowMap` sampler uniform? -/
def isSpotShadowMapUpload : GLEvent → Bool
  | .uniformSampler name _ => name == "spotShadowMap"
  | _ => false

/-- Is the event an upload of the `spotLightSpaceMatrix` uniform? -/
def isSpotLightSpaceMatrixUpload : GLEvent → Bool
  | .uniformMat4 _ name _ => name == "spotLightSpaceMatrix"
  | _ => false

/-- The names of all sampler uniforms uploaded in a trace, in order. -/
def samplerUploadNames (trace : List GLEvent) : List String :=
  trace.filterMap fun e =>
    match e with
    | .uniformSampler name _ => some name
    | _ => none

/-- The names of all 4×4-matrix uniforms uploaded in a trace, in order. -/
def mat4UploadNames (trace : List GLEvent) : List String :=
  trace.filterMap fun e =>
    match e with
    | .uniformMat4 _ name _ => some name
    | _ => none

/-! ## The per-object transform constants of the two passes.

Each pose collects the scale / Euler-rotation / translation literals of one
object as they appear in the source; `RenderScene` and `RenderShadowMap`
inline these same literals (the poses below are definitionally equal to
them, which the C2 proofs exploit). -/

/-- Scale, XYZ Euler angles in degrees, translation. -/
structure ModelPose where
  scale : Vec3R
  xDeg : ℝ
  yDeg : ℝ
  zDeg : ℝ
  pos : Vec3R

/-- The model matrix of a pose. -/
noncomputable def poseModel (p : ModelPose) : Mat4 :=
  modelMatrixTRS p.scale p.xDeg p.yDeg p.zDeg p.pos

/-- Plane (RenderScene lines 548–556 = RenderShadowMap line 866). -/
noncomputable def planePose : ModelPose :=
  ⟨⟨20.0, 1.0, 10.0⟩, 0.0, 0.0, 0.0, ⟨0.0, 0.0, 0.0⟩⟩

/-- Saucer (lines 583–588 = line 870). -/
noncomputable def saucerPose : ModelPose :=
  ⟨⟨2.6, 0.02, 2.6⟩, 0.0, 0.0, 0.0, ⟨0.0, 0.0, 0.0⟩⟩

/-- Saucer rim (lines 609–613 = line 873). -/
noncomputable def saucerRimPose : ModelPose :=
  ⟨⟨2.6, 0.03, 2.6⟩, 0.0, 0.0, 0.0, ⟨0.0, 0.03, 0.0⟩⟩

/-- Outer mug (lines 633–641 = line 877). -/
noncomputable def outerMugPose : ModelPose :=
  ⟨⟨1.5, 2.0, 1.5⟩, 180.0, 0.0, 0.0, ⟨0.0, 2.10, 0.0⟩⟩

/-- Inner mug (lines 670–678 = line 881). -/
noncomputable def innerMugPose : ModelPose :=
  ⟨⟨1.46, 1.96, 1.46⟩, 180.0, 0.0, 0.0, ⟨0.0, 2.11, 0.0⟩⟩

/-- Liquid surface (lines 727–735 = line 885). -/
noncomputable def liquidPose : ModelPose :=
  ⟨⟨1.30, 0.01, 1.30⟩, 0.5, 0.0, 0.3, ⟨0.0, 1.78, 0.0⟩⟩

/-- Mug bottom (lines 783–791 = line 889). -/
noncomputable def mugBottomPose : ModelPose :=
  ⟨⟨1.0, 0.1, 1.0⟩, 0.0, 0.0, 0.0, ⟨0.0, 0.06, 0.0⟩⟩

/-- Straw in the color pass (RenderScene lines 704–709). -/
noncomputable def strawColorPose : ModelPose :=
  ⟨⟨0.08, 2.96, 0.08⟩, -32.25, 150.0, 0.0, ⟨-0.45, 0.25, -0.12⟩⟩

/-- Straw in the depth pass (RenderShadowMap line 893). -/
noncomputable def strawDepthPose : ModelPose :=
  ⟨⟨0.08, 2.96, 0.08⟩, -24.0, -18.0, 0.0, ⟨-0.45, 2.60, -0.12⟩⟩

/-! # Theorems -/

/-- C6: a `CreateGLTexture` call whose image decodes with a channel count
other than 3 or 4 returns failure and leaves the registry untouched: same
entry count, same entry array. -/
theorem c6_unsupported_channels_fails_without_side_effects
    (r : TextureRegistry) (width height colorChannels textureID : ℕ)
    (tag : String) (h3 : colorChannels ≠ 3) (h4 : colorChannels ≠ 4) :
    (CreateGLTexture r (.ok width height colorChannels) textureID tag).1 = false ∧
    (CreateGLTexture r (.ok width height colorChannels) textureID tag).2.m_loadedTextures
      = r.m_loadedTextures ∧
    (CreateGLTexture r (.ok width height colorChannels) textureID tag).2.m_textureIDs
      = r.m_textureIDs := by
  simp [CreateGLTexture, h3, h4]

/-- Witness for C6 at a concrete 2-channel image registered into the fresh
registry. -/
theorem c6_witness :
    (2 : ℕ) ≠ 3 ∧ (2 : ℕ) ≠ 4 ∧
    ((CreateGLTexture initRegistry (.ok 8 8 2) 5 "stone").1 = false ∧
     (CreateGLTexture initRegistry (.ok 8 8 2) 5 "stone").2.m_loadedTextures
       = initRegistry.m_loadedTextures ∧
     (CreateGLTexture initRegistry (.ok 8 8 2) 5 "stone").2.m_textureIDs
       = initRegistry.m_textureIDs) :=
  ⟨by decide, by decide,
   c6_unsupported_channels_fails_without_side_effects initRegistry 8 8 2 5 "stone"
     (by decide) (by decide)⟩

/-- C9: the registry write of a successful `CreateGLTexture` has no
capacity guard.  (1) When fewer than 16 textures are registered, the write
at index `m_loadedTextures` is inside the 16-entry array and lands
(`m_textureIDs[m_loadedTextures]` becomes the new entry), the call
succeeds, and the count increments.  (2) When the 16-entry cap is already
reached, the call still reports success (no explicit failure); the write
is the out-of-bounds branch. -/
theorem c9_registry_write_in_bounds_and_no_capacity_check :
    (∀ (r : TextureRegistry) (width height colorChannels textureID : ℕ) (tag : String),
      (colorChannels = 3 ∨ colorChannels = 4) →
      r.m_textureIDs.length = 16 →
      r.m_loadedTextures < 16 →
      r.m_loadedTextures < r.m_textureIDs.length ∧
      (CreateGLTexture r (.ok width height colorChannels) textureID tag).1 = true ∧
      (CreateGLTexture r (.ok width height colorChannels) textureID tag).2.m_textureIDs[r.m_loadedTextures]?
        = some ⟨textureID, tag⟩ ∧
      (CreateGLTexture r (.ok width height colorChannels) textureID tag).2.m_loadedTextures
        = r.m_loadedTextures + 1) ∧
    (∀ (r : TextureRegistry) (width height colorChannels textureID : ℕ) (tag : String),
      (colorChannels = 3 ∨ colorChannels = 4) →
      r.m_loadedTextures = 16 →
      (CreateGLTexture r (.ok width height colorChannels) textureID tag).1 = true ∧
      (CreateGLTexture r (.ok width height colorChannels) textureID tag).2.m_loadedTextures = 17) := by
  constructor
  · intro r width height colorChannels textureID tag hch hlen hcount
    refine ⟨by omega, ?_, ?_, ?_⟩
    · simp [CreateGLTexture, hch]
    · simp only [CreateGLTexture, if_pos hch]
      exact List.getElem?_set_eq_of_lt _ (by omega)
    · simp [CreateGLTexture, hch]
  · intro r width height colorChannels textureID tag hch hcount
    constructor
    · simp [CreateGLTexture, hch]
    · simp [CreateGLTexture, hch, hcount]

/-- Witness for C9 at a fresh registry (count 0) and at a full registry
(count 16). -/
theorem c9_witness :
    ((3 : ℕ) = 3 ∨ (3 : ℕ) = 4) ∧
    initRegistry.m_textureIDs.length = 16 ∧
    initRegistry.m_loadedTextures < 16 ∧
    (initRegistry.m_loadedTextures < initRegistry.m_textureIDs.length ∧
     (CreateGLTexture initRegistry (.ok 8 8 3) 5 "stone").1 = true ∧
     (CreateGLTexture initRegistry (.ok 8 8 3) 5 "stone").2.m_textureIDs[initRegistry.m_loadedTextures]?
       = some ⟨5, "stone"⟩ ∧
     (CreateGLTexture initRegistry (.ok 8 8 3) 5 "stone").2.m_loadedTextures
       = initRegistry.m_loadedTextures + 1) ∧
    ((CreateGLTexture ⟨List.replicate 16 default, 16⟩ (.ok 8 8 3) 5 "extra").1 = true ∧
     (CreateGLTexture ⟨List.replicate 16 default, 16⟩ (.ok 8 8 3) 5 "extra").2.m_loadedTextures = 17) :=
  ⟨by decide, by decide, by decide,
   c9_registry_write_in_bounds_and_no_capacity_check.1 initRegistry 8 8 3 5 "stone"
     (by decide) (by decide) (by decide),
   c9_registry_write_in_bounds_and_no_capacity_check.2 ⟨List.replicate 16 default, 16⟩ 8 8 3 5 "extra"
     (by decide) (by decide)⟩

/-- `glmClamp` lands in `[lo, hi]` whenever `lo ≤ hi`. -/
lemma glmClamp_mem (x lo hi : ℚ) (h : lo ≤ hi) :
    lo ≤ glmClamp x lo hi ∧ glmClamp x lo hi ≤ hi := by
  unfold glmClamp
  exact ⟨le_min (le_max_right x lo) h, min_le_right _ _⟩

lemma rippleInv_init : RippleInv initRippleState := by
  refine ⟨?_, ?_, ?_, ?_⟩ <;> norm_num [initRippleState]

/-- A clamped amplitude update preserves the ripple invariant. -/
lemma rippleInv_clampUpdate (s : RippleState) (x : ℚ)
    (hmin : s.m_rippleMin = 0) (hmax : s.m_rippleMax = 0.2) :
    RippleInv { s with m_rippleAmplitude := glmClamp x s.m_rippleMin s.m_rippleMax } := by
  have hb : s.m_rippleMin ≤ s.m_rippleMax := by rw [hmin, hmax]; norm_num
  obtain ⟨h1, h2⟩ := glmClamp_mem x s.m_rippleMin s.m_rippleMax hb
  exact ⟨hmin, hmax, by rw [← hmin]; exact h1, by rw [← hmax]; exact h2⟩

lemma rippleInv_iKeyStep (input : RippleInput) (s : RippleState)
    (h : RippleInv s) : RippleInv (rippleIKeyStep input s) := by
  unfold rippleIKeyStep
  split
  · exact rippleInv_clampUpdate s _ h.1 h.2.1
  · exact h

lemma rippleInv_uKeyStep (input : RippleInput) (s : RippleState)
    (h : RippleInv s) : RippleInv (rippleUKeyStep input s) := by
  unfold rippleUKeyStep
  split
  · exact rippleInv_clampUpdate s _ h.1 h.2.1
  · exact h

/-- One `ProcessRippleControls` step preserves the ripple invariant. -/
lemma rippleInv_step (input : RippleInput) (s : RippleState)
    (h : RippleInv s) : RippleInv (ProcessRippleControls input s) := by
  unfold ProcessRippleControls
  split
  · exact h
  · exact rippleInv_uKeyStep input _ (rippleInv_iKeyStep input s h)

/-- The invariant holds after any sequence of ripple-control frames. -/
lemma rippleInv_foldl (inputs : List RippleInput) (s : RippleState)
    (h : RippleInv s) :
    RippleInv (inputs.foldl (fun st i => ProcessRippleControls i st) s) := by
  induction inputs generalizing s with
  | nil => exact h
  | cons i rest ih => exact ih _ (rippleInv_step i s h)

/-- C10: the ripple amplitude starts at `0.10`, and after any sequence of
`ProcessRippleControls` frames (any combination of window presence and
I/U key states) the amplitude — which is exactly the value
`PrepareSceneView` pushes into the `rippleAmplitude` uniform — lies in
`[0, 0.2]`. -/
theorem c10_ripple_amplitude_clamped :
    initRippleState.m_rippleAmplitude = 0.10 ∧
    ∀ inputs : List RippleInput,
      0 ≤ preparedRippleAmplitudeUniform
            (inputs.foldl (fun st i => ProcessRippleControls i st) initRippleState) ∧
      preparedRippleAmplitudeUniform
            (inputs.foldl (fun st i => ProcessRippleControls i st) initRippleState) ≤ 0.2 := by
  refine ⟨rfl, fun inputs => ?_⟩
  have h := rippleInv_foldl inputs initRippleState rippleInv_init
  exact ⟨h.2.2.1, h.2.2.2⟩

/-- C1 (code bug evaluation): with a non-empty materials list (one material
tagged `"ceramic"`), a `SetShaderMaterial "unknown"` call does NOT leave
the three material uniforms unchanged: `FindMaterial` returns `true` even
though no tag matches (SceneManager.cpp line 278 returns `true`
unconditionally once the list is non-empty), so the uniforms are
overwritten with the contents of the uninitialized local
`OBJECT_MATERIAL material` (line 401) — here an arbitrary indeterminate
value `⟨⟨9,9,9⟩, ⟨8,8,8⟩, 7, ""⟩`. -/
theorem c1_unknown_material_tag_overwrites_uniforms :
    SetShaderMaterial
        [⟨⟨1, 1, 1⟩, ⟨1, 1, 1⟩, 1, "ceramic"⟩]
        ⟨⟨3, 3, 3⟩, ⟨4, 4, 4⟩, 32⟩
        "unknown"
        ⟨⟨9, 9, 9⟩, ⟨8, 8, 8⟩, 7, ""⟩
      = ⟨⟨9, 9, 9⟩, ⟨8, 8, 8⟩, 7⟩ ∧
    (⟨⟨9, 9, 9⟩, ⟨8, 8, 8⟩, 7⟩ : MaterialUniforms)
      ≠ ⟨⟨3, 3, 3⟩, ⟨4, 4, 4⟩, 32⟩ ∧
    (FindMaterial [⟨⟨1, 1, 1⟩, ⟨1, 1, 1⟩, 1, "ceramic"⟩] "unknown"
        ⟨⟨9, 9, 9⟩, ⟨8, 8, 8⟩, 7, ""⟩).1 = true ∧
    SetShaderMaterial [] ⟨⟨3, 3, 3⟩, ⟨4, 4, 4⟩, 32⟩ "unknown"
        ⟨⟨9, 9, 9⟩, ⟨8, 8, 8⟩, 7, ""⟩
      = ⟨⟨3, 3, 3⟩, ⟨4, 4, 4⟩, 32⟩ := by
  refine ⟨?_, ?_, ?_, ?_⟩ <;> decide

/-! Per-section trace observations used by C5 (and later C2).  Each proof
just splits the single `if` inside `SetShaderTexture` (when present) and
evaluates the literal event list. -/

lemma shadowBindBlock_zero (M : Mat4) : shadowBindBlock 0 M = [] := by
  simp [shadowBindBlock]

lemma drawCalls_append (l1 l2 : List GLEvent) :
    drawCalls (l1 ++ l2) = drawCalls l1 ++ drawCalls l2 :=
  List.filterMap_append l1 l2 _

lemma samplerUploadNames_append (l1 l2 : List GLEvent) :
    samplerUploadNames (l1 ++ l2) = samplerUploadNames l1 ++ samplerUploadNames l2 :=
  List.filterMap_append l1 l2 _

lemma mat4UploadNames_append (l1 l2 : List GLEvent) :
    mat4UploadNames (l1 ++ l2) = mat4UploadNames l1 ++ mat4UploadNames l2 :=
  List.filterMap_append l1 l2 _

lemma drawCalls_planeSection (reg : TextureRegistry) :
    drawCalls (planeSection reg) = [.plane] := by
  simp only [planeSection, SetTransformations, SetShaderTexture, SetTextureUVScale, drawCalls]
  by_cases h : FindTextureID reg "stone" > 0 <;> simp [h, drawOf]

lemma drawCalls_saucerSection :
    drawCalls saucerSection = [.cylinder true true true] := by
  unfold saucerSection SetTransformations SetShaderColor SetTextureUVScale drawCalls
  rfl

lemma drawCalls_saucerRimSection :
    drawCalls saucerRimSection = [.cylinder false true true] := by
  unfold saucerRimSection SetTransformations SetShaderColor drawCalls
  rfl

lemma drawCalls_outerMugSection (reg : TextureRegistry) :
    drawCalls (outerMugSection reg) = [.taperedCylinder true false true] := by
  simp only [outerMugSection, SetTransformations, SetShaderTexture, SetTextureUVScale, drawCalls]
  by_cases h : FindTextureID reg "grass" > 0 <;> simp [h, drawOf]

lemma drawCalls_innerMugSection (reg : TextureRegistry) :
    drawCalls (innerMugSection reg) = [.taperedCylinder false false true] := by
  simp only [innerMugSection, SetTransformations, SetShaderTexture, SetTextureUVScale, drawCalls]
  by_cases h : FindTextureID reg "grass" > 0 <;> simp [h, drawOf]

lemma drawCalls_strawSection :
    drawCalls strawSection = [.cylinder true true true] := by
  unfold strawSection SetTransformations SetShaderColor drawCalls
  rfl

lemma drawCalls_liquidSection (time : ℝ) :
    drawCalls (liquidSection time) = [.cylinder true false false] := by
  unfold liquidSection SetTransformations SetShaderColor drawCalls
  rfl

lemma drawCalls_mugBottomSection (reg : TextureRegistry) :
    drawCalls (mugBottomSection reg) = [.cylinder true true false] := by
  simp only [mugBottomSection, SetTransformations, SetShaderTexture, SetTextureUVScale, drawCalls]
  by_cases h : FindTextureID reg "grass" > 0 <;> simp [h, drawOf]

lemma samplerNames_planeSection (reg : TextureRegistry) :
    samplerUploadNames (planeSection reg) = ["objectTexture"] := by
  simp only [planeSection, SetTransformations, SetShaderTexture, SetTextureUVScale,
    samplerUploadNames]
  by_cases h : FindTextureID reg "stone" > 0 <;> simp [h]

lemma samplerNames_saucerSection : samplerUploadNames saucerSection = [] := by
  unfold saucerSection SetTransformations SetShaderColor SetTextureUVScale samplerUploadNames
  rfl

lemma samplerNames_saucerRimSection : samplerUploadNames saucerRimSection = [] := by
  unfold saucerRimSection SetTransformations SetShaderColor samplerUploadNames
  rfl

lemma samplerNames_outerMugSection (reg : TextureRegistry) :
    samplerUploadNames (outerMugSection reg) = ["objectTexture"] := by
  simp only [outerMugSection, SetTransformations, SetShaderTexture, SetTextureUVScale,
    samplerUploadNames]
  by_cases h : FindTextureID reg "grass" > 0 <;> simp [h]

lemma samplerNames_innerMugSection (reg : TextureRegistry) :
    samplerUploadNames (innerMugSection reg) = ["objectTexture"] := by
  simp only [innerMugSection, SetTransformations, SetShaderTexture, SetTextureUVScale,
    samplerUploadNames]
  by_cases h : FindTextureID reg "grass" > 0 <;> simp [h]

lemma samplerNames_strawSection : samplerUploadNames strawSection = [] := by
  unfold strawSection SetTransformations SetShaderColor samplerUploadNames
  rfl

lemma samplerNames_liquidSection (time : ℝ) :
    samplerUploadNames (liquidSection time) = [] := by
  unfold liquidSection SetTransformations SetShaderColor samplerUploadNames
  rfl

lemma samplerNames_mugBottomSection (reg : TextureRegistry) :
    samplerUploadNames (mugBottomSection reg) = ["objectTexture"] := by
  simp only [mugBottomSection, SetTransformations, SetShaderTexture, SetTextureUVScale,
    samplerUploadNames]
  by_cases h : FindTextureID reg "grass" > 0 <;> simp [h]

lemma mat4Names_planeSection (reg : TextureRegistry) :
    mat4UploadNames (planeSection reg) = ["model"] := by
  simp only [planeSection, SetTransformations, SetShaderTexture, SetTextureUVScale,
    mat4UploadNames]
  by_cases h : FindTextureID reg "stone" > 0 <;> simp [h]

lemma mat4Names_saucerSection : mat4UploadNames saucerSection = ["model"] := by
  unfold saucerSection SetTransformations SetShaderColor SetTextureUVScale mat4UploadNames
  rfl

lemma mat4Names_saucerRimSection : mat4UploadNames saucerRimSection = ["model"] := by
  unfold saucerRimSection SetTransformations SetShaderColor mat4UploadNames
  rfl

lemma mat4Names_outerMugSection (reg : TextureRegistry) :
    mat4UploadNames (outerMugSection reg) = ["model"] := by
  simp only [outerMugSection, SetTransformations, SetShaderTexture, SetTextureUVScale,
    mat4UploadNames]
  by_cases h : FindTextureID reg "grass" > 0 <;> simp [h]

lemma mat4Names_innerMugSection (reg : TextureRegistry) :
    mat4UploadNames (innerMugSection reg) = ["model"] := by
  simp only [innerMugSection, SetTransformations, SetShaderTexture, SetTextureUVScale,
    mat4UploadNames]
  by_cases h : FindTextureID reg "grass" > 0 <;> simp [h]

lemma mat4Names_strawSection : mat4UploadNames strawSection = ["model"] := by
  unfold strawSection SetTransformations SetShaderColor mat4UploadNames
  rfl

lemma mat4Names_liquidSection (time : ℝ) :
    mat4UploadNames (liquidSection time) = ["model"] := by
  unfold liquidSection SetTransformations SetShaderColor mat4UploadNames
  rfl

lemma mat4Names_mugBottomSection (reg : TextureRegistry) :
    mat4UploadNames (mugBottomSection reg) = ["model"] := by
  simp only [mugBottomSection, SetTransformations, SetShaderTexture, SetTextureUVScale,
    mat4UploadNames]
  by_cases h : FindTextureID reg "grass" > 0 <;> simp [h]

/-- C5: error-handling of missing shadow resources.  (1) If the shadow
framebuffer handle is 0 or the depth shader is null, `RenderShadowMap`
returns at once: state (including the stored light-space matrix) and GL
state unchanged, empty call trace.  (2) If the shadow depth texture is 0,
`RenderScene` skips the shadow-map binding block entirely (no
`spotShadowMap` sampler upload, no `spotLightSpaceMatrix` upload anywhere
in the frame) while still submitting all eight mesh draws of the scene in
order. -/
theorem c5_missing_shadow_resources_skip_pass_but_draws_proceed :
    (∀ (s : ShadowState) (gl : GLState) (lightPosition lightDirection : Vec3R),
      (s.m_shadowFBO = 0 ∨ s.m_hasDepthShader = false) →
      RenderShadowMap s gl lightPosition lightDirection = (s, gl, [])) ∧
    (∀ (reg : TextureRegistry) (M : Mat4) (time : ℝ),
      shadowBindBlock 0 M = [] ∧
      "spotShadowMap" ∉ samplerUploadNames (RenderScene reg 0 M time) ∧
      "spotLightSpaceMatrix" ∉ mat4UploadNames (RenderScene reg 0 M time) ∧
      drawCalls (RenderScene reg 0 M time) =
        [.plane, .cylinder true true true, .cylinder false true true,
         .taperedCylinder true false true, .taperedCylinder false false true,
         .cylinder true true true, .cylinder true false false,
         .cylinder true true false]) := by
  constructor
  · intro s gl lightPosition lightDirection h
    unfold RenderShadowMap
    rw [if_pos h]
  · intro reg M time
    have hsam : samplerUploadNames (RenderScene reg 0 M time) =
        ["objectTexture", "objectTexture", "objectTexture", "objectTexture"] := by
      unfold RenderScene
      rw [shadowBindBlock_zero]
      simp only [samplerUploadNames_append]
      rw [samplerNames_planeSection, samplerNames_saucerSection,
        samplerNames_saucerRimSection, samplerNames_outerMugSection,
        samplerNames_innerMugSection, samplerNames_strawSection,
        samplerNames_liquidSection, samplerNames_mugBottomSection]
      rfl
    have hmat : mat4UploadNames (RenderScene reg 0 M time) =
        ["model", "model", "model", "model", "model", "model", "model", "model"] := by
      unfold RenderScene
      rw [shadowBindBlock_zero]
      simp only [mat4UploadNames_append]
      rw [mat4Names_planeSection, mat4Names_saucerSection,
        mat4Names_saucerRimSection, mat4Names_outerMugSection,
        mat4Names_innerMugSection, mat4Names_strawSection,
        mat4Names_liquidSection, mat4Names_mugBottomSection]
      rfl
    refine ⟨shadowBindBlock_zero M, ?_, ?_, ?_⟩
    · rw [hsam]; decide
    · rw [hmat]; decide
    · unfold RenderScene
      rw [shadowBindBlock_zero]
      simp only [drawCalls_append]
      rw [drawCalls_planeSection, drawCalls_saucerSection,
        drawCalls_saucerRimSection, drawCalls_outerMugSection,
        drawCalls_innerMugSection, drawCalls_strawSection,
        drawCalls_liquidSection, drawCalls_mugBottomSection]
      rfl

/-- Witness for C5 at a concrete uninitialized shadow state. -/
theorem c5_witness :
    ((⟨0, 0, 2048, 2048, true, (1 : Mat4)⟩ : ShadowState).m_shadowFBO = 0 ∨
      (⟨0, 0, 2048, 2048, true, (1 : Mat4)⟩ : ShadowState).m_hasDepthShader = false) ∧
    RenderShadowMap ⟨0, 0, 2048, 2048, true, (1 : Mat4)⟩ ⟨⟨0, 0, 1000, 800⟩, 0⟩
        ⟨2, 6, 2⟩ ⟨0, -1, 0⟩
      = (⟨0, 0, 2048, 2048, true, (1 : Mat4)⟩, ⟨⟨0, 0, 1000, 800⟩, 0⟩, []) :=
  ⟨Or.inl rfl,
   c5_missing_shadow_resources_skip_pass_but_draws_proceed.1
     ⟨0, 0, 2048, 2048, true, (1 : Mat4)⟩ ⟨⟨0, 0, 1000, 800⟩, 0⟩
     ⟨2, 6, 2⟩ ⟨0, -1, 0⟩ (Or.inl rfl)⟩

/-- C4: a `RenderShadowMap` call with initialized resources performs
exactly one framebuffer bind (to the non-zero shadow FBO) and exactly one
unbind (to 0), saves the viewport exactly once (`getViewport` is the only
state-query the pass makes) and writes it exactly twice (the switch to the
shadow resolution and the restore); on return the viewport equals the
pre-call viewport and the bound framebuffer is the default 0. -/
theorem c4_shadow_pass_framebuffer_viewport_discipline
    (s : ShadowState) (gl : GLState) (lightPosition lightDirection : Vec3R)
    (hfbo : s.m_shadowFBO ≠ 0) (hsh : s.m_hasDepthShader = true) :
    ((RenderShadowMap s gl lightPosition lightDirection).2.2).countP
        isBindFramebufferNonzero = 1 ∧
    ((RenderShadowMap s gl lightPosition lightDirection).2.2).countP
        isBindFramebufferZero = 1 ∧
    ((RenderShadowMap s gl lightPosition lightDirection).2.2).countP
        isGetViewport = 1 ∧
    ((RenderShadowMap s gl lightPosition lightDirection).2.2).countP
        isSetViewport = 2 ∧
    ((RenderShadowMap s gl lightPosition lightDirection).2.1).viewport = gl.viewport ∧
    ((RenderShadowMap s gl lightPosition lightDirection).2.1).boundFramebuffer = 0 := by
  obtain ⟨⟨vx, vy, vw, vh⟩, fb⟩ := gl
  have hguard : ¬(s.m_shadowFBO = 0 ∨ s.m_hasDepthShader = false) := by
    rw [hsh]; simp [hfbo]
  unfold RenderShadowMap
  rw [if_neg hguard]
  unfold renderShadowMapBody setDepthModel
  refine ⟨?_, ?_, ?_, ?_, ?_, ?_⟩ <;>
    simp [List.countP_append, List.countP_cons, List.foldl_append,
      applyGLEvent, isBindFramebufferNonzero, isBindFramebufferZero,
      isGetViewport, isSetViewport, hfbo]

/-- Witness for C4 at a concrete initialized shadow state and viewport. -/
theorem c4_witness :
    (⟨3, 4, 2048, 2048, true, (1 : Mat4)⟩ : ShadowState).m_shadowFBO ≠ 0 ∧
    (⟨3, 4, 2048, 2048, true, (1 : Mat4)⟩ : ShadowState).m_hasDepthShader = true ∧
    (((RenderShadowMap ⟨3, 4, 2048, 2048, true, (1 : Mat4)⟩ ⟨⟨0, 0, 1000, 800⟩, 0⟩
        ⟨2, 6, 2⟩ ⟨0, -1, 0⟩).2.2).countP isBindFramebufferNonzero = 1 ∧
     ((RenderShadowMap ⟨3, 4, 2048, 2048, true, (1 : Mat4)⟩ ⟨⟨0, 0, 1000, 800⟩, 0⟩
        ⟨2, 6, 2⟩ ⟨0, -1, 0⟩).2.2).countP isBindFramebufferZero = 1 ∧
     ((RenderShadowMap ⟨3, 4, 2048, 2048, true, (1 : Mat4)⟩ ⟨⟨0, 0, 1000, 800⟩, 0⟩
        ⟨2, 6, 2⟩ ⟨0, -1, 0⟩).2.2).countP isGetViewport = 1 ∧
     ((RenderShadowMap ⟨3, 4, 2048, 2048, true, (1 : Mat4)⟩ ⟨⟨0, 0, 1000, 800⟩, 0⟩
        ⟨2, 6, 2⟩ ⟨0, -1, 0⟩).2.2).countP isSetViewport = 2 ∧
     ((RenderShadowMap ⟨3, 4, 2048, 2048, true, (1 : Mat4)⟩ ⟨⟨0, 0, 1000, 800⟩, 0⟩
        ⟨2, 6, 2⟩ ⟨0, -1, 0⟩).2.1).viewport =
       (⟨⟨0, 0, 1000, 800⟩, 0⟩ : GLState).viewport ∧
     ((RenderShadowMap ⟨3, 4, 2048, 2048, true, (1 : Mat4)⟩ ⟨⟨0, 0, 1000, 800⟩, 0⟩
        ⟨2, 6, 2⟩ ⟨0, -1, 0⟩).2.1).boundFramebuffer = 0) :=
  ⟨by decide, rfl,
   c4_shadow_pass_framebuffer_viewport_discipline
     ⟨3, 4, 2048, 2048, true, (1 : Mat4)⟩ ⟨⟨0, 0, 1000, 800⟩, 0⟩
     ⟨2, 6, 2⟩ ⟨0, -1, 0⟩ (by decide) rfl⟩

/-- C3: with initialized resources and the 2048×2048 shadow map, a
`RenderShadowMap` call for light position `p` and non-zero direction `d`
stores exactly
`perspective(radians 48, 2048/2048, 0.05, 80) * lookAt(p, p + normalize d, (0,1,0))`
as the frame's light-space matrix; in particular for `p = (2,6,2)` every
entry of the stored matrix is within `1e-5` of the matrix computed with
aspect ratio `1.0` (they are equal, since `2048/2048 = 1`). -/
theorem c3_light_space_matrix_formula
    (s : ShadowState) (gl : GLState) (lightPosition lightDirection : Vec3R)
    (hfbo : s.m_shadowFBO ≠ 0) (hsh : s.m_hasDepthShader = true)
    (hw : s.m_shadowMapWidth = 2048) (hh : s.m_shadowMapHeight = 2048)
    (hd : lightDirection ≠ ⟨0, 0, 0⟩) :
    (RenderShadowMap s gl lightPosition lightDirection).1.m_spotLightSpaceMatrix =
      glmPerspective (glmRadians 48.0) ((2048 : ℝ) / (2048 : ℝ)) 0.05 80.0 *
        glmLookAt lightPosition (lightPosition + glmNormalize lightDirection)
          ⟨0.0, 1.0, 0.0⟩ ∧
    (lightPosition = ⟨2, 6, 2⟩ →
      ∀ i j : Fin 4,
        |((RenderShadowMap s gl lightPosition lightDirection).1.m_spotLightSpaceMatrix -
            glmPerspective (glmRadians 48.0) 1.0 0.05 80.0 *
              glmLookAt ⟨2, 6, 2⟩ ((⟨2, 6, 2⟩ : Vec3R) + glmNormalize lightDirection)
                ⟨0.0, 1.0, 0.0⟩) i j| ≤ 1e-5) := by
  have hguard : ¬(s.m_shadowFBO = 0 ∨ s.m_hasDepthShader = false) := by
    rw [hsh]; simp [hfbo]
  have hmain : (RenderShadowMap s gl lightPosition lightDirection).1.m_spotLightSpaceMatrix =
      glmPerspective (glmRadians 48.0) ((2048 : ℝ) / (2048 : ℝ)) 0.05 80.0 *
        glmLookAt lightPosition (lightPosition + glmNormalize lightDirection)
          ⟨0.0, 1.0, 0.0⟩ := by
    unfold RenderShadowMap
    rw [if_neg hguard]
    unfold renderShadowMapBody
    rw [hw, hh]
    norm_num
  refine ⟨hmain, fun hp i j => ?_⟩
  have haspect : ((2048 : ℝ) / (2048 : ℝ)) = 1.0 := by norm_num
  rw [hmain, hp, haspect]
  simp
  norm_num

/-- Witness for C3 at `p = (2,6,2)`, `d = (0,-1,0)`. -/
theorem c3_witness :
    (⟨3, 4, 2048, 2048, true, (1 : Mat4)⟩ : ShadowState).m_shadowFBO ≠ 0 ∧
    (⟨0, -1, 0⟩ : Vec3R) ≠ ⟨0, 0, 0⟩ ∧
    ((RenderShadowMap ⟨3, 4, 2048, 2048, true, (1 : Mat4)⟩ ⟨⟨0, 0, 1000, 800⟩, 0⟩
          ⟨2, 6, 2⟩ ⟨0, -1, 0⟩).1.m_spotLightSpaceMatrix =
        glmPerspective (glmRadians 48.0) ((2048 : ℝ) / (2048 : ℝ)) 0.05 80.0 *
          glmLookAt ⟨2, 6, 2⟩ ((⟨2, 6, 2⟩ : Vec3R) + glmNormalize ⟨0, -1, 0⟩)
            ⟨0.0, 1.0, 0.0⟩ ∧
      ((⟨2, 6, 2⟩ : Vec3R) = ⟨2, 6, 2⟩ →
        ∀ i j : Fin 4,
          |((RenderShadowMap ⟨3, 4, 2048, 2048, true, (1 : Mat4)⟩ ⟨⟨0, 0, 1000, 800⟩, 0⟩
                ⟨2, 6, 2⟩ ⟨0, -1, 0⟩).1.m_spotLightSpaceMatrix -
              glmPerspective (glmRadians 48.0) 1.0 0.05 80.0 *
                glmLookAt ⟨2, 6, 2⟩ ((⟨2, 6, 2⟩ : Vec3R) + glmNormalize ⟨0, -1, 0⟩)
                  ⟨0.0, 1.0, 0.0⟩) i j| ≤ 1e-5)) :=
  ⟨by decide,
   by intro h; exact absurd (congrArg Vec3R.y h) (by norm_num),
   c3_light_space_matrix_formula
     ⟨3, 4, 2048, 2048, true, (1 : Mat4)⟩ ⟨⟨0, 0, 1000, 800⟩, 0⟩
     ⟨2, 6, 2⟩ ⟨0, -1, 0⟩ (by decide) rfl rfl rfl
     (by intro h; exact absurd (congrArg Vec3R.y h) (by norm_num))⟩

/-! Stepping lemmas for `drawsWithModel` over the helper blocks (used by
C2). -/

lemma dwm_SetTransformations (sc : Vec3R) (x y z : ℝ) (pos : Vec3R)
    (rest : List GLEvent) (cur : Option Mat4) :
    drawsWithModel (SetTransformations sc x y z pos ++ rest) cur =
      drawsWithModel rest (some (modelMatrixTRS sc x y z pos)) := by
  simp [SetTransformations, drawsWithModel, modelMatrixTRS]

lemma dwm_setDepthModel (sc : Vec3R) (x y z : ℝ) (pos : Vec3R)
    (rest : List GLEvent) (cur : Option Mat4) :
    drawsWithModel (setDepthModel sc x y z pos ++ rest) cur =
      drawsWithModel rest (some (modelMatrixTRS sc x y z pos)) := by
  simp [setDepthModel, drawsWithModel, modelMatrixTRS]

lemma dwm_shadowBindBlock (tex : ℕ) (M : Mat4)
    (rest : List GLEvent) (cur : Option Mat4) :
    drawsWithModel (shadowBindBlock tex M ++ rest) cur = drawsWithModel rest cur := by
  unfold shadowBindBlock
  by_cases h : tex ≠ 0 <;> simp [h, drawsWithModel]

lemma dwm_shadowBindBlock_nil (tex : ℕ) (M : Mat4) (cur : Option Mat4) :
    drawsWithModel (shadowBindBlock tex M) cur = [] := by
  have h := dwm_shadowBindBlock tex M [] cur
  simpa using h

lemma dwm_planeSection (reg : TextureRegistry) (rest : List GLEvent) (cur : Option Mat4) :
    drawsWithModel (planeSection reg ++ rest) cur =
      (some (poseModel planePose), .plane) ::
        drawsWithModel rest (some (poseModel planePose)) := by
  simp only [planeSection, SetShaderTexture, SetTextureUVScale, List.append_assoc]
  rw [dwm_SetTransformations]
  by_cases h : FindTextureID reg "stone" > 0 <;>
    simp [h, drawsWithModel, poseModel, planePose]

lemma dwm_saucerSection (rest : List GLEvent) (cur : Option Mat4) :
    drawsWithModel (saucerSection ++ rest) cur =
      (some (poseModel saucerPose), .cylinder true true true) ::
        drawsWithModel rest (some (poseModel saucerPose)) := by
  simp only [saucerSection, List.append_assoc]
  rw [dwm_SetTransformations]
  simp [SetShaderColor, SetTextureUVScale, drawsWithModel, poseModel, saucerPose]

lemma dwm_saucerRimSection (rest : List GLEvent) (cur : Option Mat4) :
    drawsWithModel (saucerRimSection ++ rest) cur =
      (some (poseModel saucerRimPose), .cylinder false true true) ::
        drawsWithModel rest (some (poseModel saucerRimPose)) := by
  simp only [saucerRimSection, List.append_assoc]
  rw [dwm_SetTransformations]
  simp [SetShaderColor, drawsWithModel, poseModel, saucerRimPose]

lemma dwm_outerMugSection (reg : TextureRegistry) (rest : List GLEvent) (cur : Option Mat4) :
    drawsWithModel (outerMugSection reg ++ rest) cur =
      (some (poseModel outerMugPose), .taperedCylinder true false true) ::
        drawsWithModel rest (some (poseModel outerMugPose)) := by
  simp only [outerMugSection, SetShaderTexture, SetTextureUVScale, List.append_assoc]
  rw [dwm_SetTransformations]
  by_cases h : FindTextureID reg "grass" > 0 <;>
    simp [h, drawsWithModel, poseModel, outerMugPose]

lemma dwm_innerMugSection (reg : TextureRegistry) (rest : List GLEvent) (cur : Option Mat4) :
    drawsWithModel (innerMugSection reg ++ rest) cur =
      (some (poseModel innerMugPose), .taperedCylinder false false true) ::
        drawsWithModel rest (some (poseModel innerMugPose)) := by
  simp only [innerMugSection, SetShaderTexture, SetTextureUVScale, List.append_assoc]
  rw [dwm_SetTransformations]
  by_cases h : FindTextureID reg "grass" > 0 <;>
    simp [h, drawsWithModel, poseModel, innerMugPose]

lemma dwm_strawSection (rest : List GLEvent) (cur : Option Mat4) :
    drawsWithModel (strawSection ++ rest) cur =
      (some (poseModel strawColorPose), .cylinder true true true) ::
        drawsWithModel rest (some (poseModel strawColorPose)) := by
  simp only [strawSection, List.append_assoc]
  rw [dwm_SetTransformations]
  simp [SetShaderColor, drawsWithModel, poseModel, strawColorPose]

lemma dwm_liquidSection (time : ℝ) (rest : List GLEvent) (cur : Option Mat4) :
    drawsWithModel (liquidSection time ++ rest) cur =
      (some (poseModel liquidPose), .cylinder true false false) ::
        drawsWithModel rest (some (poseModel liquidPose)) := by
  simp only [liquidSection, List.append_assoc]
  rw [dwm_SetTransformations]
  simp [SetShaderColor, drawsWithModel, poseModel, liquidPose]

lemma dwm_mugBottomSection (reg : TextureRegistry) (rest : List GLEvent) (cur : Option Mat4) :
    drawsWithModel (mugBottomSection reg ++ rest) cur =
      (some (poseModel mugBottomPose), .cylinder true true false) ::
        drawsWithModel rest (some (poseModel mugBottomPose)) := by
  simp only [mugBottomSection, SetShaderTexture, SetTextureUVScale, List.append_assoc]
  rw [dwm_SetTransformations]
  by_cases h : FindTextureID reg "grass" > 0 <;>
    simp [h, drawsWithModel, poseModel, mugBottomPose]

/-- The color pass's (model matrix, draw) sequence. -/
lemma dwm_RenderScene (reg : TextureRegistry) (tex : ℕ) (M : Mat4) (time : ℝ) :
    drawsWithModel (RenderScene reg tex M time) none =
      [(some (poseModel planePose), .plane),
       (some (poseModel saucerPose), .cylinder true true true),
       (some (poseModel saucerRimPose), .cylinder false true true),
       (some (poseModel outerMugPose), .taperedCylinder true false true),
       (some (poseModel innerMugPose), .taperedCylinder false false true),
       (some (poseModel strawColorPose), .cylinder true true true),
       (some (poseModel liquidPose), .cylinder true false false),
       (some (poseModel mugBottomPose), .cylinder true true false)] := by
  unfold RenderScene
  simp only [List.append_assoc]
  rw [dwm_shadowBindBlock, dwm_planeSection, dwm_saucerSection,
    dwm_saucerRimSection, dwm_outerMugSection, dwm_innerMugSection,
    dwm_strawSection, dwm_liquidSection, dwm_mugBottomSection,
    dwm_shadowBindBlock_nil]

/-- The depth pass's (model matrix, draw) sequence. -/
lemma dwm_RenderShadowMap (s : ShadowState) (gl : GLState)
    (lightPosition lightDirection : Vec3R)
    (hguard : ¬(s.m_shadowFBO = 0 ∨ s.m_hasDepthShader = false)) :
    drawsWithModel ((RenderShadowMap s gl lightPosition lightDirection).2.2) none =
      [(some (poseModel planePose), .plane),
       (some (poseModel saucerPose), .cylinder true true true),
       (some (poseModel saucerRimPose), .cylinder false true true),
       (some (poseModel outerMugPose), .taperedCylinder true false true),
       (some (poseModel innerMugPose), .taperedCylinder false false true),
       (some (poseModel liquidPose), .cylinder true false false),
       (some (poseModel mugBottomPose), .cylinder true true false),
       (some (poseModel strawDepthPose), .cylinder true true true)] := by
  unfold RenderShadowMap
  rw [if_neg hguard]
  unfold renderShadowMapBody setDepthModel
  simp only [List.append_assoc, List.cons_append, List.nil_append]
  simp only [drawsWithModel]
  rw [if_neg (by decide : ¬(("view" : String) = "model")),
    if_neg (by decide : ¬(("projection" : String) = "model"))]
  simp only [if_true]
  simp only [poseModel, planePose, saucerPose, saucerRimPose, outerMugPose,
    innerMugPose, liquidPose, mugBottomPose, strawDepthPose, modelMatrixTRS]

/-- C2: the depth pass uploads, for each of the seven non-straw objects,
the same model matrix (computed from the same scale/rotation/translation
pose) as the color pass, and submits the same mesh-draw variant; the
straw's depth pose differs from its color pose by a higher vertical offset
(`2.60` vs `0.25`) and a different rotation (`(-24, -18, 0)` vs
`(-32.25, 150, 0)` degrees), while its draw variant is the same. -/
theorem c2_depth_pass_matches_color_pass_except_straw
    (s : ShadowState) (gl : GLState) (lightPosition lightDirection : Vec3R)
    (reg : TextureRegistry) (tex : ℕ) (M : Mat4) (time : ℝ)
    (hfbo : s.m_shadowFBO ≠ 0) (hsh : s.m_hasDepthShader = true) :
    drawsWithModel ((RenderShadowMap s gl lightPosition lightDirection).2.2) none =
      [(some (poseModel planePose), .plane),
       (some (poseModel saucerPose), .cylinder true true true),
       (some (poseModel saucerRimPose), .cylinder false true true),
       (some (poseModel outerMugPose), .taperedCylinder true false true),
       (some (poseModel innerMugPose), .taperedCylinder false false true),
       (some (poseModel liquidPose), .cylinder true false false),
       (some (poseModel mugBottomPose), .cylinder true true false),
       (some (poseModel strawDepthPose), .cylinder true true true)] ∧
    drawsWithModel (RenderScene reg tex M time) none =
      [(some (poseModel planePose), .plane),
       (some (poseModel saucerPose), .cylinder true true true),
       (some (poseModel saucerRimPose), .cylinder false true true),
       (some (poseModel outerMugPose), .taperedCylinder true false true),
       (some (poseModel innerMugPose), .taperedCylinder false false true),
       (some (poseModel strawColorPose), .cylinder true true true),
       (some (poseModel liquidPose), .cylinder true false false),
       (some (poseModel mugBottomPose), .cylinder true true false)] ∧
    strawDepthPose.pos.y > strawColorPose.pos.y ∧
    (strawDepthPose.xDeg, strawDepthPose.yDeg, strawDepthPose.zDeg) ≠
      (strawColorPose.xDeg, strawColorPose.yDeg, strawColorPose.zDeg) ∧
    strawDepthPose.scale = strawColorPose.scale := by
  have hguard : ¬(s.m_shadowFBO = 0 ∨ s.m_hasDepthShader = false) := by
    rw [hsh]; simp [hfbo]
  refine ⟨dwm_RenderShadowMap s gl lightPosition lightDirection hguard,
    dwm_RenderScene reg tex M time, ?_, ?_, ?_⟩
  · show (2.60 : ℝ) > 0.25
    norm_num
  · intro h
    have hx : ((-24.0 : ℝ)) = (-32.25 : ℝ) := congrArg Prod.fst h
    norm_num at hx
  · rfl

/-- Witness for C2 at a concrete initialized shadow state. -/
theorem c2_witness :
    (⟨3, 4, 2048, 2048, true, (1 : Mat4)⟩ : ShadowState).m_shadowFBO ≠ 0 ∧
    drawsWithModel
        ((RenderShadowMap ⟨3, 4, 2048, 2048, true, (1 : Mat4)⟩ ⟨⟨0, 0, 1000, 800⟩, 0⟩
          ⟨2, 6, 2⟩ ⟨0, -1, 0⟩).2.2) none =
      [(some (poseModel planePose), .plane),
       (some (poseModel saucerPose), .cylinder true true true),
       (some (poseModel saucerRimPose), .cylinder false true true),
       (some (poseModel outerMugPose), .taperedCylinder true false true),
       (some (poseModel innerMugPose), .taperedCylinder false false true),
       (some (poseModel liquidPose), .cylinder true false false),
       (some (poseModel mugBottomPose), .cylinder true true false),
       (some (poseModel strawDepthPose), .cylinder true true true)] ∧
    drawsWithModel (RenderScene initRegistry 0 (1 : Mat4) 0) none =
      [(some (poseModel planePose), .plane),
       (some (poseModel saucerPose), .cylinder true true true),
       (some (poseModel saucerRimPose), .cylinder false true true),
       (some (poseModel outerMugPose), .taperedCylinder true false true),
       (some (poseModel innerMugPose), .taperedCylinder false false true),
       (some (poseModel strawColorPose), .cylinder true true true),
       (some (poseModel liquidPose), .cylinder true false false),
       (some (poseModel mugBottomPose), .cylinder true true false)] :=
  ⟨by decide,
   (c2_depth_pass_matches_color_pass_except_straw
      ⟨3, 4, 2048, 2048, true, (1 : Mat4)⟩ ⟨⟨0, 0, 1000, 800⟩, 0⟩
      ⟨2, 6, 2⟩ ⟨0, -1, 0⟩ initRegistry 0 (1 : Mat4) 0 (by decide) rfl).1,
   (c2_depth_pass_matches_color_pass_except_straw
      ⟨3, 4, 2048, 2048, true, (1 : Mat4)⟩ ⟨⟨0, 0, 1000, 800⟩, 0⟩
      ⟨2, 6, 2⟩ ⟨0, -1, 0⟩ initRegistry 0 (1 : Mat4) 0 (by decide) rfl).2.1⟩

/-! List lemmas about the registry's fixed-array write and the first-match
lookup loops (for C7 and C8). -/

/-- `set` past the taken prefix does not change the prefix. -/
lemma take_set_self {α : Type} (l : List α) (n : ℕ) (e : α) :
    (l.set n e).take n = l.take n := by
  induction l generalizing n with
  | nil => simp
  | cons x xs ih =>
    cases n with
    | zero => simp
    | succ m => simp [List.set_cons_succ, List.take_succ_cons, ih m]

/-- Taking one past an in-bounds `set` index splits off the written
element. -/
lemma take_set_succ {α : Type} (l : List α) (n : ℕ) (e : α) (h : n < l.length) :
    (l.set n e).take (n + 1) = l.take n ++ [e] := by
  induction l generalizing n with
  | nil => simp at h
  | cons x xs ih =>
    cases n with
    | zero => simp
    | succ m =>
      simp only [List.set_cons_succ, List.take_succ_cons, List.cons_append]
      rw [ih m (by simpa using h)]

/-- The slot-lookup loop finds the first matching entry. -/
lemma findTextureSlotLoop_append_found (tag : String) (l1 : List TEXTURE_INFO)
    (e : TEXTURE_INFO) (l2 : List TEXTURE_INFO) (he : e.tag = tag) :
    ∀ i : ℕ, (∀ x ∈ l1, x.tag ≠ tag) →
      findTextureSlotLoop tag (l1 ++ e :: l2) i = ((i + l1.length : ℕ) : ℤ) := by
  induction l1 with
  | nil => intro i _; simp [findTextureSlotLoop, he]
  | cons x xs ih =>
    intro i h1
    have hx : ¬x.tag = tag := h1 x (List.mem_cons_self x xs)
    have hstep : findTextureSlotLoop tag ((x :: xs) ++ e :: l2) i =
        if x.tag = tag then (i : ℤ)
        else findTextureSlotLoop tag (xs ++ e :: l2) (i + 1) := rfl
    rw [hstep, if_neg hx, ih (i + 1) (fun y hy => h1 y (List.mem_cons_of_mem x hy))]
    simp only [List.length_cons]
    push_cast
    ring

/-- The id-lookup loop finds the first matching entry. -/
lemma findTextureIDLoop_append_found (tag : String) (l1 : List TEXTURE_INFO)
    (e : TEXTURE_INFO) (l2 : List TEXTURE_INFO) (he : e.tag = tag)
    (h1 : ∀ x ∈ l1, x.tag ≠ tag) :
    findTextureIDLoop tag (l1 ++ e :: l2) = (e.ID : ℤ) := by
  induction l1 with
  | nil => simp [findTextureIDLoop, he]
  | cons x xs ih =>
    have hx : ¬x.tag = tag := h1 x (List.mem_cons_self x xs)
    have hstep : findTextureIDLoop tag ((x :: xs) ++ e :: l2) =
        if x.tag = tag then (x.ID : ℤ)
        else findTextureIDLoop tag (xs ++ e :: l2) := rfl
    rw [hstep, if_neg hx]
    exact ih (fun y hy => h1 y (List.mem_cons_of_mem x hy))

/-- A `-1` result of the slot-lookup loop means no entry matches. -/
lemma findTextureSlotLoop_eq_neg_one (tag : String) :
    ∀ (l : List TEXTURE_INFO) (i : ℕ),
      findTextureSlotLoop tag l i = -1 → ∀ x ∈ l, x.tag ≠ tag := by
  intro l
  induction l with
  | nil => intro i _ x hx; simp at hx
  | cons e rest ih =>
    intro i h x hx
    by_cases he : e.tag = tag
    · rw [findTextureSlotLoop, if_pos he] at h
      omega
    · rw [findTextureSlotLoop, if_neg he] at h
      rcases List.mem_cons.1 hx with hx | hx
      · rw [hx]; exact he
      · exact ih (i + 1) h x hx

/-- C7: registering the same tag twice (both calls successful, the tag not
previously present, capacity available) leaves the first registration as
the one every lookup returns: `FindTextureSlot` returns the first entry's
slot, `FindTextureID` the first entry's handle, while the second entry
still sits in the registry at the next index. -/
theorem c7_duplicate_tag_first_registration_wins
    (r : TextureRegistry) (w1 h1 c1 w2 h2 c2 id1 id2 : ℕ) (tag : String)
    (hc1 : c1 = 3 ∨ c1 = 4) (hc2 : c2 = 3 ∨ c2 = 4)
    (hlen : r.m_textureIDs.length = 16)
    (hcap : r.m_loadedTextures + 2 ≤ 16)
    (habs : FindTextureSlot r tag = -1) :
    FindTextureSlot
        (CreateGLTexture (CreateGLTexture r (.ok w1 h1 c1) id1 tag).2
          (.ok w2 h2 c2) id2 tag).2 tag = (r.m_loadedTextures : ℤ) ∧
    FindTextureID
        (CreateGLTexture (CreateGLTexture r (.ok w1 h1 c1) id1 tag).2
          (.ok w2 h2 c2) id2 tag).2 tag = (id1 : ℤ) ∧
    (CreateGLTexture (CreateGLTexture r (.ok w1 h1 c1) id1 tag).2
        (.ok w2 h2 c2) id2 tag).2.m_loadedTextures = r.m_loadedTextures + 2 ∧
    (CreateGLTexture (CreateGLTexture r (.ok w1 h1 c1) id1 tag).2
        (.ok w2 h2 c2) id2 tag).2.m_textureIDs[r.m_loadedTextures + 1]?
      = some ⟨id2, tag⟩ := by
  set n := r.m_loadedTextures with hn
  set l := r.m_textureIDs with hl
  have hr1 : (CreateGLTexture r (.ok w1 h1 c1) id1 tag).2 =
      ⟨l.set n ⟨id1, tag⟩, n + 1⟩ := by
    simp [CreateGLTexture, hc1, hn, hl]
  have hr2 : (CreateGLTexture (CreateGLTexture r (.ok w1 h1 c1) id1 tag).2
      (.ok w2 h2 c2) id2 tag).2 =
      ⟨(l.set n ⟨id1, tag⟩).set (n + 1) ⟨id2, tag⟩, n + 2⟩ := by
    rw [hr1]
    simp [CreateGLTexture, hc2]
  have hlen1 : (l.set n ⟨id1, tag⟩).length = 16 := by
    rw [List.length_set]; exact hlen
  have htake : ((l.set n ⟨id1, tag⟩).set (n + 1) ⟨id2, tag⟩).take (n + 2) =
      l.take n ++ (⟨id1, tag⟩ : TEXTURE_INFO) :: [⟨id2, tag⟩] := by
    rw [take_set_succ _ (n + 1) _ (by omega)]
    rw [take_set_succ _ n _ (by omega)]
    simp
  have hnomatch : ∀ x ∈ l.take n, x.tag ≠ tag :=
    findTextureSlotLoop_eq_neg_one tag (l.take n) 0 habs
  refine ⟨?_, ?_, ?_, ?_⟩
  · rw [hr2]
    show findTextureSlotLoop tag
      (((l.set n ⟨id1, tag⟩).set (n + 1) ⟨id2, tag⟩).take (n + 2)) 0 = (n : ℤ)
    rw [htake,
      findTextureSlotLoop_append_found tag (l.take n) ⟨id1, tag⟩ [⟨id2, tag⟩] rfl 0 hnomatch]
    simp [List.length_take, hlen]
    omega
  · rw [hr2]
    show findTextureIDLoop tag
      (((l.set n ⟨id1, tag⟩).set (n + 1) ⟨id2, tag⟩).take (n + 2)) = (id1 : ℤ)
    rw [htake,
      findTextureIDLoop_append_found tag (l.take n) ⟨id1, tag⟩ [⟨id2, tag⟩] rfl hnomatch]
  · rw [hr2]
  · rw [hr2]
    exact List.getElem?_set_eq_of_lt _ (by rw [hlen1]; omega)

/-- Witness for C7: two registrations of `"stone"` into the fresh
registry. -/
theorem c7_witness :
    ((3 : ℕ) = 3 ∨ (3 : ℕ) = 4) ∧
    initRegistry.m_textureIDs.length = 16 ∧
    initRegistry.m_loadedTextures + 2 ≤ 16 ∧
    FindTextureSlot initRegistry "stone" = -1 ∧
    (FindTextureSlot
        (CreateGLTexture (CreateGLTexture initRegistry (.ok 8 8 3) 5 "stone").2
          (.ok 4 4 4) 9 "stone").2 "stone" = (initRegistry.m_loadedTextures : ℤ) ∧
     FindTextureID
        (CreateGLTexture (CreateGLTexture initRegistry (.ok 8 8 3) 5 "stone").2
          (.ok 4 4 4) 9 "stone").2 "stone" = (5 : ℤ) ∧
     (CreateGLTexture (CreateGLTexture initRegistry (.ok 8 8 3) 5 "stone").2
        (.ok 4 4 4) 9 "stone").2.m_loadedTextures = initRegistry.m_loadedTextures + 2 ∧
     (CreateGLTexture (CreateGLTexture initRegistry (.ok 8 8 3) 5 "stone").2
        (.ok 4 4 4) 9 "stone").2.m_textureIDs[initRegistry.m_loadedTextures + 1]?
       = some ⟨9, "stone"⟩) :=
  ⟨by decide, by decide, by decide, by decide,
   c7_duplicate_tag_first_registration_wins initRegistry 8 8 3 4 4 4 5 9 "stone"
     (by decide) (by decide) (by decide) (by decide) (by decide)⟩

/-- Effect of a sequence of successful `CreateGLTexture` calls on the
registry: the count grows by the number of calls, the 16-entry array keeps
its length, and the active prefix extends by the registered entries in call
order. -/
lemma foldl_regStep_spec (calls : List RegCall) :
    ∀ r : TextureRegistry,
      r.m_textureIDs.length = 16 →
      r.m_loadedTextures + calls.length ≤ 16 →
      (∀ c ∈ calls, c.colorChannels = 3 ∨ c.colorChannels = 4) →
      (calls.foldl regStep r).m_loadedTextures = r.m_loadedTextures + calls.length ∧
      (calls.foldl regStep r).m_textureIDs.length = 16 ∧
      (calls.foldl regStep r).m_textureIDs.take
          ((calls.foldl regStep r).m_loadedTextures) =
        r.m_textureIDs.take r.m_loadedTextures ++ calls.map entryOf := by
  induction calls with
  | nil =>
    intro r hlen hcap _
    exact ⟨by simp, by simpa using hlen, by simp⟩
  | cons c rest ih =>
    intro r hlen hcap hch
    have hc : c.colorChannels = 3 ∨ c.colorChannels = 4 :=
      hch c (List.mem_cons_self c rest)
    have hstepCount : (regStep r c).m_loadedTextures = r.m_loadedTextures + 1 := by
      simp [regStep, CreateGLTexture, hc]
    have hstepEntries : (regStep r c).m_textureIDs =
        r.m_textureIDs.set r.m_loadedTextures (entryOf c) := by
      simp [regStep, CreateGLTexture, hc, entryOf]
    have hlen' : (regStep r c).m_textureIDs.length = 16 := by
      rw [hstepEntries, List.length_set]; exact hlen
    have hcap' : (regStep r c).m_loadedTextures + rest.length ≤ 16 := by
      rw [hstepCount]
      simp only [List.length_cons] at hcap
      omega
    obtain ⟨h1, h2, h3⟩ := ih (regStep r c) hlen' hcap'
      (fun d hd => hch d (List.mem_cons_of_mem c hd))
    refine ⟨?_, by simpa using h2, ?_⟩
    · simp only [List.foldl_cons, List.length_cons]
      rw [h1, hstepCount]
      omega
    · simp only [List.foldl_cons, List.map_cons]
      rw [h3, hstepEntries, hstepCount]
      rw [take_set_succ _ _ _ (by
        rw [hlen]
        simp only [List.length_cons] at hcap
        omega)]
      simp

/-- First-match slot lookup on a tag-nodup entry list returns each entry
its own index (shifted by the loop's start index). -/
lemma findTextureSlotLoop_nodup (l : List TEXTURE_INFO)
    (hnd : (l.map TEXTURE_INFO.tag).Nodup) :
    ∀ (i : ℕ), (h : i < l.length) → ∀ i0 : ℕ,
      findTextureSlotLoop (l[i].tag) l i0 = ((i0 + i : ℕ) : ℤ) := by
  induction l with
  | nil => intro i h; simp at h
  | cons x xs ih =>
    intro i h i0
    cases i with
    | zero => simp [findTextureSlotLoop]
    | succ j =>
      have hj : j < xs.length := by simpa using h
      have hx : x.tag ≠ (x :: xs)[j + 1].tag := by
        rw [List.getElem_cons_succ]
        intro hEq
        have hmem : xs[j].tag ∈ xs.map TEXTURE_INFO.tag :=
          List.mem_map_of_mem _ (xs.getElem_mem hj)
        rw [← hEq] at hmem
        exact (List.nodup_cons.1 hnd).1 hmem
      have hstep : findTextureSlotLoop ((x :: xs)[j + 1].tag) (x :: xs) i0 =
          if x.tag = (x :: xs)[j + 1].tag then (i0 : ℤ)
          else findTextureSlotLoop ((x :: xs)[j + 1].tag) xs (i0 + 1) := rfl
      rw [hstep, if_neg hx, List.getElem_cons_succ,
        ih (List.nodup_cons.1 hnd).2 j hj (i0 + 1)]
      push_cast
      ring

/-- First-match id lookup on a tag-nodup entry list returns each entry's
own handle. -/
lemma findTextureIDLoop_nodup (l : List TEXTURE_INFO)
    (hnd : (l.map TEXTURE_INFO.tag).Nodup) :
    ∀ (i : ℕ), (h : i < l.length) →
      findTextureIDLoop (l[i].tag) l = (l[i].ID : ℤ) := by
  induction l with
  | nil => intro i h; simp at h
  | cons x xs ih =>
    intro i h
    cases i with
    | zero => simp [findTextureIDLoop]
    | succ j =>
      have hj : j < xs.length := by simpa using h
      have hx : x.tag ≠ (x :: xs)[j + 1].tag := by
        rw [List.getElem_cons_succ]
        intro hEq
        have hmem : xs[j].tag ∈ xs.map TEXTURE_INFO.tag :=
          List.mem_map_of_mem _ (xs.getElem_mem hj)
        rw [← hEq] at hmem
        exact (List.nodup_cons.1 hnd).1 hmem
      have hstep : findTextureIDLoop ((x :: xs)[j + 1].tag) (x :: xs) =
          if x.tag = (x :: xs)[j + 1].tag then (x.ID : ℤ)
          else findTextureIDLoop ((x :: xs)[j + 1].tag) xs := rfl
      rw [hstep, if_neg hx, List.getElem_cons_succ,
        ih (List.nodup_cons.1 hnd).2 j hj]

/-- C8: after any sequence of successful registrations with
pairwise-distinct tags followed by `BindGLTextures`, the `i`-th registered
texture is bound to texture unit `i`, `FindTextureSlot` returns `i`,
`FindTextureID` returns the handle stored at registration, and the default
`objectTexture` sampler is set to unit 0. -/
theorem c8_registration_order_determines_units
    (calls : List RegCall)
    (hch : ∀ c ∈ calls, c.colorChannels = 3 ∨ c.colorChannels = 4)
    (hnd : (calls.map RegCall.tag).Nodup)
    (hcap : calls.length ≤ 16)
    (i : ℕ) (hi : i < calls.length) :
    FindTextureSlot (calls.foldl regStep initRegistry) (calls[i].tag) = (i : ℤ) ∧
    FindTextureID (calls.foldl regStep initRegistry) (calls[i].tag) =
      (calls[i].textureID : ℤ) ∧
    (BindGLTextures (calls.foldl regStep initRegistry)).1[i]? =
      some (i, calls[i].textureID) ∧
    (BindGLTextures (calls.foldl regStep initRegistry)).2 = ("objectTexture", 0) := by
  obtain ⟨hcount, hlen, htake⟩ := foldl_regStep_spec calls initRegistry
    (by simp [initRegistry]) (by simpa [initRegistry] using hcap) hch
  have htake' : (calls.foldl regStep initRegistry).m_textureIDs.take
      ((calls.foldl regStep initRegistry).m_loadedTextures) = calls.map entryOf := by
    rw [htake]; simp [initRegistry]
  have hnd' : ((calls.map entryOf).map TEXTURE_INFO.tag).Nodup := by
    rw [List.map_map]; exact hnd
  have hi' : i < (calls.map entryOf).length := by simpa using hi
  have htag : (calls.map entryOf)[i].tag = calls[i].tag := by
    simp [entryOf]
  have hid : (calls.map entryOf)[i].ID = calls[i].textureID := by
    simp [entryOf]
  refine ⟨?_, ?_, ?_, rfl⟩
  · show findTextureSlotLoop (calls[i].tag)
      ((calls.foldl regStep initRegistry).m_textureIDs.take
        ((calls.foldl regStep initRegistry).m_loadedTextures)) 0 = (i : ℤ)
    rw [htake', ← htag, findTextureSlotLoop_nodup (calls.map entryOf) hnd' i hi' 0]
    simp
  · show findTextureIDLoop (calls[i].tag)
      ((calls.foldl regStep initRegistry).m_textureIDs.take
        ((calls.foldl regStep initRegistry).m_loadedTextures)) = _
    rw [htake', ← htag, findTextureIDLoop_nodup (calls.map entryOf) hnd' i hi', hid]
  · show ((List.range (calls.foldl regStep initRegistry).m_loadedTextures).map
      (fun k => (k, (((calls.foldl regStep initRegistry).m_textureIDs.getD k
        default).ID))))[i]? = some (i, calls[i].textureID)
    have hicount : i < (calls.foldl regStep initRegistry).m_loadedTextures := by
      rw [hcount]; simpa [initRegistry] using hi
    have hentry : (calls.foldl regStep initRegistry).m_textureIDs.getD i default =
        entryOf calls[i] := by
      rw [List.getD_eq_getElem?_getD]
      have h1 : (calls.foldl regStep initRegistry).m_textureIDs[i]? =
          ((calls.foldl regStep initRegistry).m_textureIDs.take
            ((calls.foldl regStep initRegistry).m_loadedTextures))[i]? :=
        (List.getElem?_take_of_lt hicount).symm
      rw [h1, htake', List.getElem?_map, List.getElem?_eq_getElem hi]
      rfl
    rw [List.getElem?_map, List.getElem?_range hicount, Option.map_some', hentry]
    rfl

/-- Witness for C8: registering `"stone"` then `"grass"` and looking up the
second entry. -/
theorem c8_witness :
    (∀ c ∈ [(⟨8, 8, 3, 5, "stone"⟩ : RegCall), ⟨4, 4, 4, 9, "grass"⟩],
      c.colorChannels = 3 ∨ c.colorChannels = 4) ∧
    (([(⟨8, 8, 3, 5, "stone"⟩ : RegCall), ⟨4, 4, 4, 9, "grass"⟩].map RegCall.tag).Nodup) ∧
    (FindTextureSlot
        ([(⟨8, 8, 3, 5, "stone"⟩ : RegCall), ⟨4, 4, 4, 9, "grass"⟩].foldl regStep initRegistry)
        ([(⟨8, 8, 3, 5, "stone"⟩ : RegCall), ⟨4, 4, 4, 9, "grass"⟩][1].tag) = (1 : ℤ) ∧
     FindTextureID
        ([(⟨8, 8, 3, 5, "stone"⟩ : RegCall), ⟨4, 4, 4, 9, "grass"⟩].foldl regStep initRegistry)
        ([(⟨8, 8, 3, 5, "stone"⟩ : RegCall), ⟨4, 4, 4, 9, "grass"⟩][1].tag) =
       (([(⟨8, 8, 3, 5, "stone"⟩ : RegCall), ⟨4, 4, 4, 9, "grass"⟩][1].textureID : ℕ) : ℤ) ∧
     (BindGLTextures
        ([(⟨8, 8, 3, 5, "stone"⟩ : RegCall), ⟨4, 4, 4, 9, "grass"⟩].foldl regStep initRegistry)).1[1]? =
       some (1, [(⟨8, 8, 3, 5, "stone"⟩ : RegCall), ⟨4, 4, 4, 9, "grass"⟩][1].textureID) ∧
     (BindGLTextures
        ([(⟨8, 8, 3, 5, "stone"⟩ : RegCall), ⟨4, 4, 4, 9, "grass"⟩].foldl regStep initRegistry)).2 =
       ("objectTexture", 0)) :=
  ⟨by decide, by decide,
   c8_registration_order_determines_units
     [⟨8, 8, 3, 5, "stone"⟩, ⟨4, 4, 4, 9, "grass"⟩]
     (by decide) (by decide) (by decide) 1 (by decide)⟩

end CS330
